import Mathlib

/-!
# Verification of the robotics cost-benefit and recommendation engine

Shallow embedding, over exact rational arithmetic, of the deterministic core of
`backend/services/robotics_analysis_service.py`:

* `calculate_effective_robot_cost` (the per-robot effective-cost model),
* `determine_recommendation_new` (cycle metrics, per-option savings, CAPEX,
  multi-year projections, and the recommendation selection), and
* `perform_full_analysis` (the orchestrator), with the two generative-model
  collaborators and the robot-catalog loader modelled as inputs (their outputs
  are untrusted data handed to the orchestrator).

JSON field values reaching the Python code are modelled by `JVal`; a key that
may be absent from a dict is an `Option`.  Python `float` arithmetic is
modelled by `ℚ` (exact arithmetic; IEEE rounding and non-finite values are
abstracted away — in this model every arithmetic result is a finite rational).
Python exceptions escaping a computation are modelled by `Except PyExn`.
-/

/-- A JSON value sitting in a dict field, as the Python code sees it.
`str` stands for string values on which Python `float()` raises
(non-numeric text); numeric values are `num`, JSON `null` is `null`. -/
inductive JVal where
  | num (q : ℚ)
  | str (s : String)
  | null
  deriving DecidableEq, Repr

/-- Python `float(v)`: succeeds on numbers, raises `ValueError`/`TypeError`
on non-numeric strings and on `None`. -/
def pyFloatOf : JVal → Option ℚ
  | JVal.num q => some q
  | _ => Option.none

/-- One robot record of the catalog (`urdf_service.get_available_robots`).
Capability fields are opaque to the cost math and omitted.  An `Option.none`
field models the key being absent from the dict. -/
structure RobotRecord where
  robot_name : Option String
  purchase_price : Option JVal
  op_cost_per_min : Option JVal
  end_effector_cost_percent : Option JVal
  deriving DecidableEq, Repr

/-- Result of `calculate_effective_robot_cost`: a number, or the string
sentinel `"N/A"` (`NotComputable`). -/
inductive CostResult where
  | na
  | val (q : ℚ)
  deriving DecidableEq, Repr

/-- `robot_info.get(key)`: returns `None` both when the key is absent and
when the stored value is JSON `null`. -/
def dictGet : Option JVal → Option JVal
  | some JVal.null => Option.none
  | some v => some v
  | Option.none => Option.none

/-- Embedding of `calculate_effective_robot_cost(robot_info, T, H, G)`
(`robotics_analysis_service.py`, lines 10–126).

* `O = robot_info.get('op_cost_per_min')`; `None` (absent or null) → `"N/A"`.
* `C`, `E` are coerced with `float(.)`; a failing coercion is caught locally
  and the value falls back to `0.0` (the computation continues).
* `float(O)` failing raises, is caught by the outer `except`, → `"N/A"`.
* `T ≤ 0` or `H ≤ 0` → `"N/A"`; `(1+G) ≤ 0` → `"N/A"`.
* Otherwise the arithmetic of lines 100–122 runs (the `capex_per_min` guard
  against a zero denominator included).
`T`, `H`, `G` arrive as already-converted numbers from the orchestrator. -/
def calculate_effective_robot_cost (robot_info : RobotRecord)
    (depreciation_years hours_per_week efficiency_gain : ℚ) : CostResult :=
  match dictGet robot_info.op_cost_per_min with
  | Option.none => CostResult.na
  | some O =>
    let C_float : ℚ :=
      match dictGet robot_info.purchase_price with
      | some (JVal.num q) => q
      | _ => 0
    let E_float : ℚ :=
      match dictGet robot_info.end_effector_cost_percent with
      | some (JVal.num q) => q
      | _ => 0
    match pyFloatOf O with
    | Option.none => CostResult.na
    | some O_float =>
      let T := depreciation_years
      let H := hours_per_week
      let G := efficiency_gain
      if T ≤ 0 ∨ H ≤ 0 then CostResult.na
      else if 1 + G ≤ 0 then CostResult.na
      else
        let total_capex := C_float * (1 + E_float)
        let total_operating_minutes_in_life := T * 52 * H * 60
        let capex_per_min :=
          if 0 < total_operating_minutes_in_life then
            total_capex / total_operating_minutes_in_life
          else 0
        let robot_raw_cost_per_min := capex_per_min + O_float
        CostResult.val (robot_raw_cost_per_min / (1 + G))

/-- The number a robot field is coerced to in `calculate_effective_robot_cost`:
the numeric value when present and numeric, `0` otherwise. -/
def coerceOr0 (v : Option JVal) : ℚ :=
  match dictGet v with
  | some (JVal.num q) => q
  | _ => 0

/-- The code path that feeds a field value to Python `float()` and fails:
only a non-numeric string does so (absent keys and `null` never reach
`float()` on the `C`/`E` paths without being replaced by `0` first, and on
the `O` path they are caught by the dedicated `is None` check). -/
def numeric_conversion_fails (v : Option JVal) : Bool :=
  match v with
  | some (JVal.str _) => true
  | _ => false

/-- Claim-side condition of C2: "a numeric conversion of any input fails" —
some field of the record holds a value whose `float()` coercion raises. -/
def any_numeric_conversion_fails (r : RobotRecord) : Bool :=
  numeric_conversion_fails r.purchase_price ||
  numeric_conversion_fails r.op_cost_per_min ||
  numeric_conversion_fails r.end_effector_cost_percent

/-- C1: for a robot whose `op_cost_per_min` is a numeric `O`, and `T > 0`,
`H > 0`, `(1+G) > 0`, the effective cost is
`((C*(1+E)) / (T*52*H*60) + O) / (1+G)` with `C`, `E` the 0-defaulted numeric
coercions of `purchase_price` and `end_effector_cost_percent`; and when both
coerce to `0` the result is `O / (1+G)`, independent of `T` and `H`. -/
theorem C1_effective_cost_formula (r : RobotRecord) (T H G o : ℚ)
    (hO : r.op_cost_per_min = some (JVal.num o))
    (hT : 0 < T) (hH : 0 < H) (hG : 0 < 1 + G) :
    calculate_effective_robot_cost r T H G =
      CostResult.val
        ((coerceOr0 r.purchase_price * (1 + coerceOr0 r.end_effector_cost_percent)
            / (T * 52 * H * 60) + o) / (1 + G))
    ∧ (coerceOr0 r.purchase_price = 0 → coerceOr0 r.end_effector_cost_percent = 0 →
        calculate_effective_robot_cost r T H G = CostResult.val (o / (1 + G))) := by
  have hTH : ¬ (T ≤ 0 ∨ H ≤ 0) := by push_neg; exact ⟨hT, hH⟩
  have hG' : ¬ (1 + G ≤ 0) := not_le.mpr hG
  have hden : 0 < T * 52 * H * 60 := by positivity
  have hmain : calculate_effective_robot_cost r T H G =
      CostResult.val
        ((coerceOr0 r.purchase_price * (1 + coerceOr0 r.end_effector_cost_percent)
            / (T * 52 * H * 60) + o) / (1 + G)) := by
    simp only [calculate_effective_robot_cost, hO, dictGet, pyFloatOf, coerceOr0]
    rw [if_neg hTH, if_neg hG', if_pos hden]
  refine ⟨hmain, fun hC hE => ?_⟩
  rw [hmain, hC, hE]
  norm_num

/-- Concrete robot record exercising C1. -/
def rC1 : RobotRecord :=
  { robot_name := some "w", purchase_price := some (JVal.num 100),
    op_cost_per_min := some (JVal.num 2),
    end_effector_cost_percent := some (JVal.num 1) }

/-- Witness for C1 at `rC1`, `T = 1`, `H = 1`, `G = 0`. -/
theorem C1_effective_cost_formula_witness :
    calculate_effective_robot_cost rC1 1 1 0 =
      CostResult.val
        ((coerceOr0 rC1.purchase_price * (1 + coerceOr0 rC1.end_effector_cost_percent)
            / (1 * 52 * 1 * 60) + 2) / (1 + 0)) :=
  (C1_effective_cost_formula rC1 1 1 0 2 rfl (by norm_num) (by norm_num) (by norm_num)).1

/-- Robot record whose `purchase_price` is a non-numeric string: `float(C)`
raises, the exception is caught locally, and the computation continues with
`C = 0` — the function still returns a number. -/
def rBadPrice : RobotRecord :=
  { robot_name := some "r", purchase_price := some (JVal.str "expensive"),
    op_cost_per_min := some (JVal.num 1), end_effector_cost_percent := Option.none }

/-- C2 as stated is false: at `rBadPrice` (with `T = H = 1`, `G = 0`) a
numeric conversion of an input (`purchase_price`) fails, yet the function
returns a number, not the `N/A` sentinel — the claimed "exactly when"
biconditional does not hold. -/
theorem C2_counterexample :
    ¬ (calculate_effective_robot_cost rBadPrice 1 1 0 = CostResult.na ↔
        (dictGet rBadPrice.op_cost_per_min = Option.none ∨
         (1 : ℚ) ≤ 0 ∨ (1 : ℚ) ≤ 0 ∨ 1 + (0 : ℚ) ≤ 0 ∨
         any_numeric_conversion_fails rBadPrice = true)) := by
  have hval : calculate_effective_robot_cost rBadPrice 1 1 0 = CostResult.val 1 := by
    norm_num [calculate_effective_robot_cost, rBadPrice, dictGet, pyFloatOf]
  rw [hval]
  norm_num [any_numeric_conversion_fails, numeric_conversion_fails, rBadPrice, dictGet]
  exact fun hb => CostResult.noConfusion hb

/-- C2 amended: the function (which is total — no exception escapes) returns
the `N/A` sentinel exactly when `op_cost_per_min` is absent or `null`, or is a
non-numeric string (so that `float(O)` raises), or `T ≤ 0`, or `H ≤ 0`, or
`(1+G) ≤ 0`.  A failing numeric conversion of `purchase_price` or
`end_effector_cost_percent` is caught and coerced to `0`, and still yields a
number. -/
theorem C2_na_characterization (r : RobotRecord) (T H G : ℚ) :
    calculate_effective_robot_cost r T H G = CostResult.na ↔
      (dictGet r.op_cost_per_min = Option.none ∨
       (∃ s, dictGet r.op_cost_per_min = some (JVal.str s)) ∨
       T ≤ 0 ∨ H ≤ 0 ∨ 1 + G ≤ 0) := by
  rcases h : dictGet r.op_cost_per_min with _ | v
  · simp [calculate_effective_robot_cost, h]
  · rcases v with q | s | _
    · have hr : calculate_effective_robot_cost r T H G =
          if T ≤ 0 ∨ H ≤ 0 then CostResult.na
          else if 1 + G ≤ 0 then CostResult.na
          else CostResult.val
            (((if 0 < T * 52 * H * 60 then
                  coerceOr0 r.purchase_price *
                    (1 + coerceOr0 r.end_effector_cost_percent) / (T * 52 * H * 60)
                else 0) + q) / (1 + G)) := by
        simp only [calculate_effective_robot_cost, h, pyFloatOf, coerceOr0]
      rw [hr]
      by_cases h1 : T ≤ 0 ∨ H ≤ 0
      · rw [if_pos h1]
        simp [h]
        tauto
      · rw [if_neg h1]
        by_cases h2 : 1 + G ≤ 0
        · rw [if_pos h2]
          simp [h]
          tauto
        · rw [if_neg h2]
          simp [h]
          push_neg at h1 h2
          exact ⟨h1.1, h1.2, h2⟩
    · simp [calculate_effective_robot_cost, h, pyFloatOf]
    · exfalso
      rcases hop : r.op_cost_per_min with _ | u
      · rw [hop] at h; simp [dictGet] at h
      · rw [hop] at h
        rcases u with q | s | _ <;> simp [dictGet] at h

/-! ## Data model for the recommendation engine and orchestrator -/

/-- A Python exception escaping a computation: `KeyError` from a bracket
access on a dict missing the key, `TypeError` from arithmetic on a
non-number. -/
inductive PyExn where
  | keyError (k : String)
  | typeError
  deriving DecidableEq, Repr

/-- `d[key]` bracket access: the value, or `KeyError` when absent. -/
def pyGetKey {α : Type} (k : String) : Option α → Except PyExn α
  | some a => Except.ok a
  | Option.none => Except.error (PyExn.keyError k)

/-- One task from the (untrusted) task extractor (the source's `Task`
record; named `PTask` here because `Task` is taken by the Lean core).  Only
the fields the core reads (`t.get('id')`, `t.get('actor_type')`) are
modelled; `action` is opaque.  `Option.none` models the key being absent
(or null). -/
structure PTask where
  id : Option Int
  actor_type : Option String
  deriving DecidableEq, Repr

/-- One assignment of an (untrusted) automation option: the code reads
`assign['task_id']` and `assign['robot_name']` with bracket access, so a
missing key raises `KeyError`. -/
structure Assignment where
  task_id : Option Int
  robot_name : Option String
  deriving DecidableEq, Repr

/-- One automation option from the (untrusted) option generator; read with
`opt.get('option_id')` and `opt.get('assignments', [])`.  The
`unassigned_human_tasks` list is never read by the cost math and is
omitted. -/
structure AutomationOption where
  option_id : Option String
  assignments : List Assignment
  deriving DecidableEq, Repr

/-- The `is_cheaper` field: a boolean, or the `"N/A"` sentinel string. -/
inductive CheaperFlag where
  | na
  | b (x : Bool)
  deriving DecidableEq, Repr

/-- One entry of an option's `robot_cost_comparison` list, as constructed by
`perform_full_analysis` step 3 (all keys always present there). -/
structure CostComparisonEntry where
  robot_name : String
  robot_effective_cost_per_human_min : CostResult
  human_cost_per_min : ℚ
  is_cheaper : CheaperFlag
  deriving DecidableEq, Repr

/-- One entry of `cost_benefit_results` handed to
`determine_recommendation_new`. -/
structure CostBenefitEntry where
  option_id : String
  robot_cost_comparison : List CostComparisonEntry
  deriving DecidableEq, Repr

/-- Insert into a Python dict modelled as an association list with unique
keys: an existing binding for the key is replaced.  (Python keeps the
overwritten key at its original position; every observation the code makes
of these dicts — lookup, membership, the set of values, iteration count —
is insensitive to that, so the binding is moved to the end.) -/
def dictInsert {κ ν : Type} [DecidableEq κ] (m : List (κ × ν)) (k : κ) (v : ν) :
    List (κ × ν) :=
  m.filter (fun p => p.1 ≠ k) ++ [(k, v)]

/-- Dict lookup (`d.get(k)` / `d[k]` after a membership test). -/
def dictLookup {κ ν : Type} [DecidableEq κ] (m : List (κ × ν)) (k : κ) : Option ν :=
  (m.find? (fun p => p.1 = k)).map Prod.snd

/-! ## CycleMetrics (`determine_recommendation_new`, lines 151–162) -/

/-- `[t for t in tasks if t.get('actor_type') == 'human']`. -/
def human_tasks (tasks : List PTask) : List PTask :=
  tasks.filter (fun t => t.actor_type = some "human")

/-- `task_duration_mins = 1.0` (fixed constant). -/
def task_duration_mins : ℚ := 1

/-- `weeks_per_year = 52` (fixed constant). -/
def weeks_per_year : ℚ := 52

/-- `cycle_time_mins = total_human_tasks * task_duration_mins`. -/
def cycle_time_mins (tasks : List PTask) : ℚ :=
  ((human_tasks tasks).length : ℚ) * task_duration_mins

/-- `cycles_per_hour = 60 / cycle_time_mins if cycle_time_mins > 0 else 1`. -/
def cycles_per_hour (tasks : List PTask) : ℚ :=
  if 0 < cycle_time_mins tasks then 60 / cycle_time_mins tasks else 1

/-- `cycles_per_year = cycles_per_hour * hours_per_week * weeks_per_year`. -/
def cycles_per_year (tasks : List PTask) (hours_per_week : ℚ) : ℚ :=
  cycles_per_hour tasks * hours_per_week * weeks_per_year

/-! ## Per-option cost, CAPEX and projection (lines 174–370) -/

/-- The `robot_metadata` dict of lines 174–180: keyed by
`robot.get('robot_name')`, skipping records whose name is absent or falsy
(the empty string); a later record with the same name overwrites an earlier
one, so lookup returns the last match. -/
def robot_metadata_lookup (available_robots : List RobotRecord) (name : String) :
    Option RobotRecord :=
  if name = "" then Option.none
  else (available_robots.filter (fun r => r.robot_name = some name)).getLast?

/-- `{assign['task_id']: assign['robot_name'] for assign in assignments}`
(line 200): bracket accesses, so a malformed assignment raises `KeyError`;
a duplicate `task_id` is overwritten by the later assignment. -/
def build_task_to_robot_map (assignments : List Assignment) :
    Except PyExn (List (Int × String)) :=
  assignments.foldlM
    (fun m assign => do
      let tid ← pyGetKey "task_id" assign.task_id
      let rn ← pyGetKey "robot_name" assign.robot_name
      pure (dictInsert m tid rn))
    []

/-- The `robot_cost_map` of lines 202–208: only numeric effective costs are
entered. -/
def build_robot_cost_map (robot_costs : List CostComparisonEntry) :
    List (String × ℚ) :=
  robot_costs.foldl
    (fun m rc =>
      match rc.robot_effective_cost_per_human_min with
      | CostResult.val q => dictInsert m rc.robot_name q
      | CostResult.na => m)
    []

/-- Per-human-task automated cost (lines 220–232): the assigned robot's cost
when the task is in the map and the robot has a numeric cost, else the human
cost (fallback for unassigned tasks and for robots with unknown cost). -/
def per_task_automated_cost (human_cost_min : ℚ) (taskMap : List (Int × String))
    (costMap : List (String × ℚ)) (task : PTask) : ℚ :=
  match task.id with
  | some tid =>
    match dictLookup taskMap tid with
    | some rn =>
      match dictLookup costMap rn with
      | some c => c * task_duration_mins
      | Option.none => human_cost_min * task_duration_mins
    | Option.none => human_cost_min * task_duration_mins
  | Option.none => human_cost_min * task_duration_mins

/-- `total_human_cost_per_cycle` accumulation of lines 215–218. -/
def total_human_cost_per_cycle (tasks : List PTask) (human_cost_min : ℚ) : ℚ :=
  (human_tasks tasks).foldl
    (fun acc _ => acc + human_cost_min * task_duration_mins) 0

/-- `total_cost_with_automation_per_cycle` accumulation of lines 215–232. -/
def total_cost_with_automation_per_cycle (tasks : List PTask) (human_cost_min : ℚ)
    (taskMap : List (Int × String)) (costMap : List (String × ℚ)) : ℚ :=
  (human_tasks tasks).foldl
    (fun acc task => acc + per_task_automated_cost human_cost_min taskMap costMap task) 0

/-- `pat` occurs at the start of `text`. -/
def startsWithChars : List Char → List Char → Bool
  | [], _ => true
  | _ :: _, [] => false
  | a :: pa, b :: pb => (a = b) && startsWithChars pa pb

/-- `pat` occurs somewhere in `text`. -/
def hasSubChars (pat : List Char) : List Char → Bool
  | [] => startsWithChars pat []
  | c :: rest => startsWithChars pat (c :: rest) || hasSubChars pat rest

/-- Python's `sub in robot_name.lower()` test, over the character list
(per-character `Char.toLower`, which coincides with CPython `str.lower` on
the ASCII names involved). -/
def containsLower (robot_name : String) (sub : String) : Bool :=
  hasSubChars sub.toList (robot_name.toList.map Char.toLower)

/-- The name-keyed default purchase price of lines 264–274, applied to the
lower-cased robot name. -/
def default_purchase_price (robot_name : String) : ℚ :=
  if containsLower robot_name "atlas" then 250000
  else if containsLower robot_name "jvrc" then 150000
  else if containsLower robot_name "digit" then 200000
  else if containsLower robot_name "ggc" || containsLower robot_name "testmodel" then 180000
  else 100000

/-- CAPEX contribution of a single robot name (lines 248–282):
`robot_end_effector_pct` starts at `0.25` and is overwritten by the raw
field value when the key is present — arithmetic `1 + pct` then raises
`TypeError` when that value is not a number.  A missing / null / non-numeric
purchase price is replaced by the name-keyed default. -/
def capex_for_robot (available_robots : List RobotRecord) (robot_name : String) :
    Except PyExn ℚ :=
  let info? := robot_metadata_lookup available_robots robot_name
  let price? : Option JVal :=
    match info? with
    | some info => info.purchase_price
    | Option.none => Option.none
  let pct? : Option JVal :=
    match info? with
    | some info => info.end_effector_cost_percent
    | Option.none => Option.none
  let robot_purchase_price : ℚ :=
    match price? with
    | some (JVal.num q) => q
    | _ => default_purchase_price robot_name
  match pct? with
  | Option.none => Except.ok (robot_purchase_price * (1 + 0.25))
  | some (JVal.num e) => Except.ok (robot_purchase_price * (1 + e))
  | some _ => Except.error PyExn.typeError

/-- `set(task_to_robot_map.values())`: the distinct robot names among the
map's values (Python set iteration order is arbitrary; it is only ever
summed over). -/
def unique_robots_of (taskMap : List (Int × String)) : List String :=
  (taskMap.map Prod.snd).dedup

/-- `robot_capex` accumulation over the option's unique robots
(lines 244–280). -/
def robot_capex_total (available_robots : List RobotRecord)
    (unique_robots : List String) : Except PyExn ℚ :=
  unique_robots.foldlM
    (fun acc rn => do
      let c ← capex_for_robot available_robots rn
      pure (acc + c))
    0

/-- Python `int(q)`: truncation toward zero. -/
def pyInt (q : ℚ) : ℤ :=
  if 0 ≤ q then ⌊q⌋ else ⌈q⌉

/-- `range(1, int(depreciation_years) + 1)` (line 335). -/
def projection_years (depreciation_years : ℚ) : List ℕ :=
  (List.range (pyInt depreciation_years).toNat).map (fun y => y + 1)

/-- `cumulative_costs_by_year` (lines 298–301 and 335–338): year 0 is the
CAPEX alone, year `y ≥ 1` is `capex + annual_cost_with_automation * y`.
The `isnan`/`isinf` repair of lines 316–322 is the identity in exact
rational arithmetic (no non-finite value exists) and is not represented. -/
def cumulative_costs_by_year
    (robot_capex annual_cost_with_automation depreciation_years : ℚ) : List ℚ :=
  [robot_capex] ++
    (projection_years depreciation_years).map
      (fun (year : ℕ) => robot_capex + annual_cost_with_automation * (year : ℚ))

/-- `baseline_cumulative_costs_by_year` (lines 302–304 and 340–342): year 0
is `0`, year `y ≥ 1` is `annual_human_cost * y`.  The `isnan`/`isinf` repair
of lines 324–328 is likewise the identity here. -/
def baseline_cumulative_costs_by_year
    (annual_human_cost depreciation_years : ℚ) : List ℚ :=
  [0] ++
    (projection_years depreciation_years).map
      (fun (year : ℕ) => annual_human_cost * (year : ℚ))

/-! ## Recommendation assembly (`determine_recommendation_new`, lines 130–416) -/

/-- One entry of `option_savings` (lines 363–370). -/
structure OptionSavings where
  option_id : String
  num_automated_tasks : ℕ
  num_tasks_with_savings : ℕ
  savings_per_cycle : ℚ
  annual_savings : ℚ
  percent_savings : ℚ
  deriving DecidableEq, Repr

/-- One entry of `annual_projections` (lines 291–305, 335–342). -/
structure OptionProjection where
  option_id : String
  baseline_cost_per_cycle : ℚ
  robot_cost_per_cycle : ℚ
  annual_baseline_cost : ℚ
  annual_cost_with_automation : ℚ
  robot_capex : ℚ
  cumulative_costs_by_year : List ℚ
  baseline_cumulative_costs_by_year : List ℚ
  deriving DecidableEq, Repr

/-- The dict returned by `determine_recommendation_new`.  The early return of
lines 166–169 omits the last three keys; `perform_full_analysis` reads them
with `.get(key, [])`, so the omission is observationally the empty list /
`false` and is modelled that way. -/
structure Recommendation where
  recommended_option_id : Option String
  justification : String
  option_savings : List OptionSavings
  annual_projections : List OptionProjection
  chart_data_verified : Bool
  deriving DecidableEq, Repr

/-- `num_tasks_with_savings` count of lines 356–360: assignments (map
entries) whose robot has a numeric cost strictly below the human cost. -/
def num_tasks_with_savings_of (human_cost_min : ℚ) (taskMap : List (Int × String))
    (costMap : List (String × ℚ)) : ℕ :=
  (taskMap.filter (fun p =>
    match dictLookup costMap p.2 with
    | some c => decide (c < human_cost_min)
    | Option.none => false)).length

/-- The best-option update of lines 375–384: take the option when its annual
savings strictly exceed the incumbent's (`-inf` initially) **and** are
positive. -/
def update_best (acc : Option (String × ℚ)) (e : String × ℚ) :
    Option (String × ℚ) :=
  let cond :=
    (match acc with
     | Option.none => true
     | some p => decide (p.2 < e.2)) && decide (0 < e.2)
  if cond then some e else acc

/-- Loop state of the `for i, option_result in enumerate(...)` loop:
the running best `(option_id, annual_savings)` pair and the two output
lists. -/
structure RecState where
  best : Option (String × ℚ)
  option_savings : List OptionSavings
  annual_projections : List OptionProjection
  deriving DecidableEq, Repr

/-- The `option_savings` record built for one option (lines 363–370, with
the per-cycle arithmetic of lines 210–240). -/
def option_summary (human_cost_min cpy : ℚ) (tasks : List PTask)
    (option_id : String) (num_automated_tasks : ℕ)
    (taskMap : List (Int × String)) (costMap : List (String × ℚ)) : OptionSavings :=
  let human_cost_cycle := total_human_cost_per_cycle tasks human_cost_min
  let auto_cost_cycle :=
    total_cost_with_automation_per_cycle tasks human_cost_min taskMap costMap
  let savings_per_cycle := human_cost_cycle - auto_cost_cycle
  { option_id := option_id
    num_automated_tasks := num_automated_tasks
    num_tasks_with_savings := num_tasks_with_savings_of human_cost_min taskMap costMap
    savings_per_cycle := savings_per_cycle
    annual_savings := savings_per_cycle * cpy
    percent_savings :=
      if 0 < human_cost_cycle then savings_per_cycle / human_cost_cycle * 100 else 0 }

/-- The `option_projection` record built for one option (lines 291–305 and
335–342). -/
def option_projection_of (human_cost_min cpy depreciation_years : ℚ)
    (tasks : List PTask) (option_id : String)
    (taskMap : List (Int × String)) (costMap : List (String × ℚ))
    (robot_capex : ℚ) : OptionProjection :=
  let human_cost_cycle := total_human_cost_per_cycle tasks human_cost_min
  let auto_cost_cycle :=
    total_cost_with_automation_per_cycle tasks human_cost_min taskMap costMap
  { option_id := option_id
    baseline_cost_per_cycle := human_cost_cycle
    robot_cost_per_cycle := auto_cost_cycle
    annual_baseline_cost := human_cost_cycle * cpy
    annual_cost_with_automation := auto_cost_cycle * cpy
    robot_capex := robot_capex
    cumulative_costs_by_year :=
      cumulative_costs_by_year robot_capex (auto_cost_cycle * cpy) depreciation_years
    baseline_cumulative_costs_by_year :=
      baseline_cumulative_costs_by_year (human_cost_cycle * cpy) depreciation_years }

/-- Body of the per-option loop (lines 182–384).  An unmatched `option_id`
is skipped (`continue`, line 195).  Bracket accesses on assignments and the
`1 + pct` arithmetic can raise. -/
def process_option (human_cost_min : ℚ) (automation_options : List AutomationOption)
    (tasks : List PTask) (depreciation_years cpy : ℚ)
    (available_robots : List RobotRecord)
    (st : RecState) (option_result : CostBenefitEntry) : Except PyExn RecState := do
  let option_id := option_result.option_id
  let robot_costs := option_result.robot_cost_comparison
  match automation_options.find? (fun opt => opt.option_id = some option_id) with
  | Option.none => pure st
  | some automation_option => do
    let assignments := automation_option.assignments
    let task_to_robot_map ← build_task_to_robot_map assignments
    let robot_cost_map := build_robot_cost_map robot_costs
    let robot_capex ← robot_capex_total available_robots (unique_robots_of task_to_robot_map)
    let summary := option_summary human_cost_min cpy tasks option_id
      assignments.length task_to_robot_map robot_cost_map
    pure { best := update_best st.best (option_id, summary.annual_savings)
           option_savings := st.option_savings ++ [summary]
           annual_projections := st.annual_projections ++
             [option_projection_of human_cost_min cpy depreciation_years tasks option_id
               task_to_robot_map robot_cost_map robot_capex] }

/-- The winning-case justification text (lines 394–400).  The Python string
interpolates the savings figures with `%`/format specifiers; that numeric
formatting is abstracted — no claim inspects it. -/
def justification_recommended (best_id : String) : String :=
  "Option " ++ best_id ++ " recommended."

/-- The fixed no-automation justification (lines 404–407). -/
def justification_no_automation : String :=
  "No automation option is cost-effective. All analyzed options would increase costs compared to manual labor. Recommendation: Keep process manual unless non-financial factors (quality, consistency, safety) justify automation."

/-- Embedding of `determine_recommendation_new` (lines 130–416).

* cycle metrics are derived from the task list and `hours_per_week`;
* an empty `cost_benefit_results` or non-positive human cost returns the
  `None`-recommendation early (lines 165–169);
* otherwise the per-option loop runs, and the final dict recommends the
  tracked best option when `best_option_id` is truthy (a *non-empty* string)
  and the highest savings are positive, else the `"No_Automation"`
  sentinel. -/
def determine_recommendation_new (cost_benefit_results : List CostBenefitEntry)
    (human_cost_min : ℚ) (automation_options : List AutomationOption)
    (tasks : List PTask) (depreciation_years hours_per_week : ℚ)
    (available_robots : List RobotRecord) : Except PyExn Recommendation := do
  let cpy := cycles_per_year tasks hours_per_week
  if cost_benefit_results.isEmpty || decide (human_cost_min ≤ 0) then
    pure { recommended_option_id := Option.none
           justification := "No valid cost comparison data available or human cost is non-positive."
           option_savings := []
           annual_projections := []
           chart_data_verified := false }
  else do
    let st ← cost_benefit_results.foldlM
      (process_option human_cost_min automation_options tasks depreciation_years cpy
        available_robots)
      { best := Option.none, option_savings := [], annual_projections := [] }
    match st.best with
    | some p =>
      if p.1 ≠ "" ∧ 0 < p.2 then
        pure { recommended_option_id := some p.1
               justification := justification_recommended p.1
               option_savings := st.option_savings
               annual_projections := st.annual_projections
               chart_data_verified := true }
      else
        pure { recommended_option_id := some "No_Automation"
               justification := justification_no_automation
               option_savings := st.option_savings
               annual_projections := st.annual_projections
               chart_data_verified := true }
    | Option.none =>
      pure { recommended_option_id := some "No_Automation"
             justification := justification_no_automation
             option_savings := st.option_savings
             annual_projections := st.annual_projections
             chart_data_verified := true }

/-! ## Orchestrator (`perform_full_analysis`, lines 422–687) -/

/-- The full result dict of lines 677–685. -/
structure FinalResults where
  process_tasks : List PTask
  available_robots : List RobotRecord
  automation_options : List AutomationOption
  cost_benefit_analysis : List CostBenefitEntry
  recommendation : Recommendation
  task_savings_analysis : List OptionSavings
  annual_projections : List OptionProjection
  deriving DecidableEq, Repr

/-- What `perform_full_analysis` returns to its caller: either the full
result dict, or a `{"error": msg}` dict. -/
inductive AnalysisPayload where
  | errorResult (msg : String)
  | results (r : FinalResults)
  deriving DecidableEq, Repr

/-- `float(v)` with the failure as a catchable error. -/
def floatEx (v : JVal) : Except String ℚ :=
  match pyFloatOf v with
  | some q => Except.ok q
  | Option.none => Except.error "could not convert to float"

/-- The input-validation `try` block of lines 431–442: converts the four
numeric inputs in source order (`T`, `H`, `G` — divided by 100 — then `OH`)
and raises when the human cost is non-positive.  **`T ≤ 0` and `H ≤ 0` are
not checked here.** -/
def validate_financial_inputs (human_cost_min depreciation_years hours_per_week efficiency_gain : JVal) :
    Except String (ℚ × ℚ × ℚ × ℚ) := do
  let t_float ← floatEx depreciation_years
  let h_float ← floatEx hours_per_week
  let g0 ← floatEx efficiency_gain
  let g_float := g0 / 100
  let oh_float ← floatEx human_cost_min
  if oh_float ≤ 0 then Except.error "Human cost per minute must be positive."
  else Except.ok (t_float, h_float, g_float, oh_float)

/-- `robot_data_map = {r['robot_name']: r for r in available_robots}`
(line 607): bracket access — a record without `robot_name` raises
`KeyError`. -/
def build_robot_data_map (available_robots : List RobotRecord) :
    Except PyExn (List (String × RobotRecord)) :=
  available_robots.foldlM
    (fun m r => do
      let name ← pyGetKey "robot_name" r.robot_name
      pure (dictInsert m name r))
    []

/-- Step-3 cost comparison for one option (lines 610–646):
`set(assign['robot_name'] ...)` evaluates every assignment's bracket access,
then each distinct robot is looked up in `robot_data_map` and priced with
`calculate_effective_robot_cost`; an unknown robot degrades to `"N/A"`
entries. -/
def cost_comparison_for_option (robot_data_map : List (String × RobotRecord))
    (t_float h_float g_float oh_float : ℚ) (option : AutomationOption) :
    Except PyExn CostBenefitEntry := do
  let option_id := (option.option_id).getD "Unknown Option"
  let robot_names ← option.assignments.mapM
    (fun assign => pyGetKey "robot_name" assign.robot_name)
  let unique_robots_in_option := robot_names.dedup
  let robot_cost_comparison := unique_robots_in_option.map (fun robot_name =>
    match dictLookup robot_data_map robot_name with
    | some robot_info =>
      let effective_cost := calculate_effective_robot_cost robot_info t_float h_float g_float
      { robot_name := robot_name
        robot_effective_cost_per_human_min := effective_cost
        human_cost_per_min := oh_float
        is_cheaper :=
          match effective_cost with
          | CostResult.val q => CheaperFlag.b (decide (q < oh_float))
          | CostResult.na => CheaperFlag.na }
    | Option.none =>
      { robot_name := robot_name
        robot_effective_cost_per_human_min := CostResult.na
        human_cost_per_min := oh_float
        is_cheaper := CheaperFlag.na })
  pure { option_id := option_id, robot_cost_comparison := robot_cost_comparison }

/-- Embedding of `perform_full_analysis` (lines 422–687).  The three
external collaborators are modelled as inputs: `analyze_video_result` is the
task extractor's output (`Option.none` = extraction failed or not a list),
`get_available_robots_result` the catalog loader's output, and
`generated_automation_options` the option list surviving the generator's
parse-with-salvage step (lines 513–601; an empty list models both "no JSON"
and "nothing salvageable").  The `recommendation is None` fallback of lines
668–675 is unreachable (the callee always returns a dict) and not
modelled. -/
def perform_full_analysis (video_uri : String)
    (human_cost_min depreciation_years hours_per_week efficiency_gain : JVal)
    (analyze_video_result : Option (List PTask))
    (get_available_robots_result : List RobotRecord)
    (generated_automation_options : List AutomationOption) :
    Except PyExn AnalysisPayload :=
  match validate_financial_inputs human_cost_min depreciation_years hours_per_week efficiency_gain with
  | Except.error e =>
    Except.ok (AnalysisPayload.errorResult ("Invalid financial input provided: " ++ e))
  | Except.ok (t_float, h_float, g_float, oh_float) =>
    match analyze_video_result with
    | Option.none =>
      Except.ok (AnalysisPayload.errorResult "Failed to analyze video process or received invalid task format.")
    | some tasks =>
      if tasks.isEmpty then
        Except.ok (AnalysisPayload.errorResult "Failed to analyze video process or received invalid task format.")
      else
        let available_robots := get_available_robots_result
        if available_robots.isEmpty then
          Except.ok (AnalysisPayload.errorResult "No available robot definitions found (required for cost analysis).")
        else do
          let automation_options := generated_automation_options
          let robot_data_map ← build_robot_data_map available_robots
          let cost_benefit_results_new ←
            (if automation_options.isEmpty then pure ([] : List CostBenefitEntry)
             else (automation_options.mapM
               (cost_comparison_for_option robot_data_map t_float h_float g_float oh_float)))
          let recommendation ← determine_recommendation_new cost_benefit_results_new
            oh_float automation_options tasks t_float h_float available_robots
          pure (AnalysisPayload.results
            { process_tasks := tasks
              available_robots := available_robots
              automation_options := automation_options
              cost_benefit_analysis := cost_benefit_results_new
              recommendation := recommendation
              task_savings_analysis := recommendation.option_savings
              annual_projections := recommendation.annual_projections })

/-! ## C6: cycle metrics -/

/-- C6: `cycle_time_mins` is the number of `human`-typed tasks (1 minute
each); `cycles_per_hour` is `60 / cycle_time_mins` when that count is
positive and `1` when it is zero; `cycles_per_year` is
`cycles_per_hour * hours_per_week * 52`. -/
theorem C6_cycle_metrics (tasks : List PTask) (hours_per_week : ℚ) :
    cycle_time_mins tasks =
      (tasks.countP (fun t => t.actor_type = some "human") : ℚ) ∧
    (0 < tasks.countP (fun t => t.actor_type = some "human") →
      cycles_per_hour tasks = 60 / cycle_time_mins tasks) ∧
    (tasks.countP (fun t => t.actor_type = some "human") = 0 →
      cycles_per_hour tasks = 1) ∧
    cycles_per_year tasks hours_per_week =
      cycles_per_hour tasks * hours_per_week * 52 := by
  have hcount : tasks.countP (fun t => t.actor_type = some "human") =
      (human_tasks tasks).length := by
    simp [human_tasks, List.countP_eq_length_filter]
  have hct : cycle_time_mins tasks =
      (tasks.countP (fun t => t.actor_type = some "human") : ℚ) := by
    simp [cycle_time_mins, hcount, task_duration_mins]
  refine ⟨hct, ?_, ?_, ?_⟩
  · intro hpos
    have : (0 : ℚ) < cycle_time_mins tasks := by
      rw [hct]
      exact_mod_cast hpos
    simp [cycles_per_hour, if_pos this]
  · intro hzero
    have : ¬ (0 : ℚ) < cycle_time_mins tasks := by
      rw [hct, hzero]
      norm_num
    simp [cycles_per_hour, if_neg this]
  · simp [cycles_per_year, weeks_per_year]

/-- Witness for C6 at a one-human-task list and `H = 40`. -/
theorem C6_cycle_metrics_witness :
    cycles_per_hour [({ id := some 1, actor_type := some "human" } : PTask)] =
      60 / cycle_time_mins [({ id := some 1, actor_type := some "human" } : PTask)] :=
  (C6_cycle_metrics [{ id := some 1, actor_type := some "human" }] 40).2.1
    (by simp [List.countP, List.countP.go])

/-! ## C7: year-indexed cumulative cost sequences -/

/-- C7: for `0 ≤ T` (as the claim's indexing `0..floor(T)` presupposes) the
two cumulative sequences have length `⌊T⌋ + 1`; entry 0 is the CAPEX
(automation) resp. `0` (baseline); entry `y ≥ 1` is
`capex + annual_automation_cost * y` resp. `annual_human_cost * y`.  Every
entry *equals* its formula value, and in this exact-rational model every
value is a finite rational — no `NaN`/`Infinity` can appear (the defensive
`isnan`/`isinf` replacement of lines 316–328 never fires). -/
theorem C7_cumulative_sequences
    (robot_capex annual_cost_with_automation annual_human_cost T : ℚ)
    (hT : 0 ≤ T) :
    (cumulative_costs_by_year robot_capex annual_cost_with_automation T).length =
      ⌊T⌋.toNat + 1 ∧
    (baseline_cumulative_costs_by_year annual_human_cost T).length =
      ⌊T⌋.toNat + 1 ∧
    (cumulative_costs_by_year robot_capex annual_cost_with_automation T).get? 0 =
      some robot_capex ∧
    (baseline_cumulative_costs_by_year annual_human_cost T).get? 0 = some 0 ∧
    (∀ y : ℕ, 1 ≤ y → y ≤ ⌊T⌋.toNat →
      (cumulative_costs_by_year robot_capex annual_cost_with_automation T).get? y =
        some (robot_capex + annual_cost_with_automation * (y : ℚ)) ∧
      (baseline_cumulative_costs_by_year annual_human_cost T).get? y =
        some (annual_human_cost * (y : ℚ))) := by
  have hpy : pyInt T = ⌊T⌋ := by simp [pyInt, if_pos hT]
  have hlen : (projection_years T).length = ⌊T⌋.toNat := by
    simp only [projection_years, List.length_map, List.length_range, hpy]
  refine ⟨?_, ?_, ?_, ?_, ?_⟩
  · simp only [cumulative_costs_by_year, List.length_append, List.length_map,
      List.length_cons, List.length_nil, hlen]
    omega
  · simp only [baseline_cumulative_costs_by_year, List.length_append, List.length_map,
      List.length_cons, List.length_nil, hlen]
    omega
  · simp [cumulative_costs_by_year]
  · simp [baseline_cumulative_costs_by_year]
  · intro y h1 h2
    obtain ⟨k, rfl⟩ : ∃ k, y = k + 1 := ⟨y - 1, (Nat.succ_pred_eq_of_pos h1).symm⟩
    have hk : k < (pyInt T).toNat := by
      rw [hpy]
      omega
    constructor
    · show (robot_capex :: (projection_years T).map
          (fun (year : ℕ) => robot_capex + annual_cost_with_automation * (year : ℚ))).get? (k + 1) = _
      rw [List.get?_cons_succ, projection_years, List.map_map, List.get?_map,
        List.get?_range hk]
      simp
    · show ((0 : ℚ) :: (projection_years T).map
          (fun (year : ℕ) => annual_human_cost * (year : ℚ))).get? (k + 1) = _
      rw [List.get?_cons_succ, projection_years, List.map_map, List.get?_map,
        List.get?_range hk]
      simp

/-- Witness for C7 at `capex = 10`, `annual = 3`, `baseline annual = 7`,
`T = 2`. -/
theorem C7_cumulative_sequences_witness :
    (cumulative_costs_by_year 10 3 2).get? 2 = some (10 + 3 * ((2 : ℕ) : ℚ)) ∧
    (baseline_cumulative_costs_by_year 7 2).get? 2 = some (7 * ((2 : ℕ) : ℚ)) :=
  (C7_cumulative_sequences 10 3 7 2 (by norm_num)).2.2.2.2 2 (by norm_num)
    (by norm_num [Int.floor_intCast])

/-! ## C5: per-option per-cycle and annual figures -/

lemma foldl_add_const (l : List PTask) (c a : ℚ) :
    l.foldl (fun acc _ => acc + c) a = a + l.length * c := by
  induction l generalizing a with
  | nil => simp
  | cons x xs ih =>
    simp only [List.foldl_cons, ih, List.length_cons]
    push_cast
    ring

lemma foldl_add_map (l : List PTask) (f : PTask → ℚ) (a : ℚ) :
    l.foldl (fun acc t => acc + f t) a = a + (l.map f).sum := by
  induction l generalizing a with
  | nil => simp
  | cons x xs ih =>
    simp only [List.foldl_cons, ih, List.map_cons, List.sum_cons]
    ring

lemma total_human_cost_eq (tasks : List PTask) (oh : ℚ) :
    total_human_cost_per_cycle tasks oh = ((human_tasks tasks).length : ℚ) * oh := by
  simp only [total_human_cost_per_cycle, task_duration_mins, mul_one, foldl_add_const]
  ring

lemma total_auto_cost_eq (tasks : List PTask) (oh : ℚ)
    (tm : List (Int × String)) (cm : List (String × ℚ)) :
    total_cost_with_automation_per_cycle tasks oh tm cm =
      ((human_tasks tasks).map (per_task_automated_cost oh tm cm)).sum := by
  simp only [total_cost_with_automation_per_cycle, foldl_add_map, zero_add]

/-- Success shape of the per-option loop body: either the option was skipped
(no matching automation option) and the state is unchanged, or the maps and
CAPEX were computed and the state gained exactly one summary and one
projection, with the best-option tracker updated on the new summary's
`(option_id, annual_savings)` pair. -/
lemma process_option_ok (oh : ℚ) (opts : List AutomationOption) (tasks : List PTask)
    (T cpy : ℚ) (robots : List RobotRecord) (st st' : RecState) (e : CostBenefitEntry)
    (h : process_option oh opts tasks T cpy robots st e = Except.ok st') :
    (opts.find? (fun opt => opt.option_id = some e.option_id) = Option.none ∧ st' = st) ∨
    (∃ ao m capex,
      opts.find? (fun opt => opt.option_id = some e.option_id) = some ao ∧
      build_task_to_robot_map ao.assignments = Except.ok m ∧
      robot_capex_total robots (unique_robots_of m) = Except.ok capex ∧
      st' = { best := update_best st.best (e.option_id,
                (option_summary oh cpy tasks e.option_id ao.assignments.length m
                  (build_robot_cost_map e.robot_cost_comparison)).annual_savings)
              option_savings := st.option_savings ++
                [option_summary oh cpy tasks e.option_id ao.assignments.length m
                  (build_robot_cost_map e.robot_cost_comparison)]
              annual_projections := st.annual_projections ++
                [option_projection_of oh cpy T tasks e.option_id m
                  (build_robot_cost_map e.robot_cost_comparison) capex] }) := by
  unfold process_option at h
  dsimp only [] at h
  cases hf : opts.find? (fun opt => opt.option_id = some e.option_id) with
  | none =>
    rw [hf] at h
    left
    simp only [pure, Except.pure, Except.ok.injEq] at h
    exact ⟨rfl, h.symm⟩
  | some ao =>
    rw [hf] at h
    dsimp only [] at h
    right
    cases hb : build_task_to_robot_map ao.assignments with
    | error ex =>
      rw [hb] at h
      simp [Bind.bind, Except.bind] at h
    | ok m =>
      rw [hb] at h
      simp only [Bind.bind, Except.bind] at h
      cases hc : robot_capex_total robots (unique_robots_of m) with
      | error ex =>
        rw [hc] at h
        simp [Except.bind] at h
      | ok capex =>
        rw [hc] at h
        simp only [Except.bind, pure, Except.pure, Except.ok.injEq] at h
        exact ⟨ao, m, capex, rfl, hb, hc, h.symm⟩

/-- C5: for every evaluated option, the state gains one summary `s` and one
projection `p` with: per-cycle human-only cost = (number of human tasks) ×
human cost; per-cycle automated cost = the sum over human tasks of the
assigned robot's numeric effective cost, falling back to the human cost for
unassigned tasks and robots without a numeric cost
(`per_task_automated_cost`); savings per cycle = their difference; and every
annual figure = the per-cycle figure × `cycles_per_year`. -/
theorem C5_per_cycle_and_annual (oh cpy T : ℚ) (opts : List AutomationOption)
    (tasks : List PTask) (robots : List RobotRecord) (st st' : RecState)
    (e : CostBenefitEntry) (ao : AutomationOption)
    (h : process_option oh opts tasks T cpy robots st e = Except.ok st')
    (hfind : opts.find? (fun opt => opt.option_id = some e.option_id) = some ao) :
    ∃ m s p,
      build_task_to_robot_map ao.assignments = Except.ok m ∧
      st'.option_savings = st.option_savings ++ [s] ∧
      st'.annual_projections = st.annual_projections ++ [p] ∧
      p.baseline_cost_per_cycle =
        (tasks.countP (fun t => t.actor_type = some "human") : ℚ) * oh ∧
      p.robot_cost_per_cycle =
        ((human_tasks tasks).map
          (per_task_automated_cost oh m (build_robot_cost_map e.robot_cost_comparison))).sum ∧
      s.savings_per_cycle = p.baseline_cost_per_cycle - p.robot_cost_per_cycle ∧
      s.annual_savings = s.savings_per_cycle * cpy ∧
      p.annual_baseline_cost = p.baseline_cost_per_cycle * cpy ∧
      p.annual_cost_with_automation = p.robot_cost_per_cycle * cpy := by
  rcases process_option_ok oh opts tasks T cpy robots st st' e h with
    ⟨hnone, _⟩ | ⟨ao', m, capex, hf, hm, hc, hst⟩
  · rw [hfind] at hnone
    exact absurd hnone (by simp)
  · rw [hfind] at hf
    injection hf with hao
    subst hao
    subst hst
    refine ⟨m,
      option_summary oh cpy tasks e.option_id ao.assignments.length m
        (build_robot_cost_map e.robot_cost_comparison),
      option_projection_of oh cpy T tasks e.option_id m
        (build_robot_cost_map e.robot_cost_comparison) capex,
      hm, rfl, rfl, ?_, ?_, ?_, ?_, ?_, ?_⟩
    · simp [option_projection_of, total_human_cost_eq, human_tasks,
        List.countP_eq_length_filter]
    · simp [option_projection_of, total_auto_cost_eq]
    · simp [option_summary, option_projection_of]
    · simp [option_summary]
    · simp [option_projection_of]
    · simp [option_projection_of]

/-! ## Selection-fold characterization (C3, C10) -/

/-- The `(option_id, annual_savings)` pairs of a summary list. -/
def pairsOf (l : List OptionSavings) : List (String × ℚ) :=
  l.map (fun s => (s.option_id, s.annual_savings))

/-- Invariant of the best-option tracker over the processed prefix:
`Option.none` means every processed option had non-positive annual savings; a
tracked pair has positive savings and is the first processed entry attaining
the maximum (everything before it is strictly smaller, everything after it
is no larger). -/
def BestInv (acc : Option (String × ℚ)) (processed : List (String × ℚ)) : Prop :=
  match acc with
  | Option.none => ∀ x ∈ processed, x.2 ≤ 0
  | some p => 0 < p.2 ∧ ∃ l₁ l₂, processed = l₁ ++ p :: l₂ ∧
      (∀ x ∈ l₁, x.2 < p.2) ∧ (∀ x ∈ l₂, x.2 ≤ p.2)

lemma update_best_inv (acc : Option (String × ℚ)) (processed : List (String × ℚ))
    (e : String × ℚ) (h : BestInv acc processed) :
    BestInv (update_best acc e) (processed ++ [e]) := by
  cases acc with
  | none =>
    simp only [BestInv] at h
    by_cases he : 0 < e.2
    · have hu : update_best Option.none e = some e := by
        simp [update_best, he]
      rw [hu]
      exact ⟨he, processed, [], rfl, fun x hx => lt_of_le_of_lt (h x hx) he, by simp⟩
    · have hu : update_best Option.none e = Option.none := by
        simp [update_best, he]
      rw [hu]
      intro x hx
      rcases List.mem_append.mp hx with hx | hx
      · exact h x hx
      · simp only [List.mem_singleton] at hx
        subst hx
        exact le_of_not_lt he
  | some p =>
    obtain ⟨hp, l₁, l₂, hsplit, h₁, h₂⟩ := h
    by_cases hcond : p.2 < e.2 ∧ 0 < e.2
    · have hu : update_best (some p) e = some e := by
        simp [update_best, hcond.1, hcond.2]
      rw [hu]
      refine ⟨hcond.2, processed, [], rfl, ?_, by simp⟩
      intro x hx
      rw [hsplit] at hx
      rcases List.mem_append.mp hx with hx | hx
      · exact lt_trans (h₁ x hx) hcond.1
      · rcases List.mem_cons.mp hx with hx | hx
        · subst hx
          exact hcond.1
        · exact lt_of_le_of_lt (h₂ x hx) hcond.1
    · have hu : update_best (some p) e = some p := by
        rcases not_and_or.mp hcond with hba | hba <;> simp [update_best, hba]
      rw [hu]
      refine ⟨hp, l₁, l₂ ++ [e], by rw [hsplit]; simp, h₁, ?_⟩
      intro x hx
      rcases List.mem_append.mp hx with hx | hx
      · exact h₂ x hx
      · simp only [List.mem_singleton] at hx
        subst hx
        rcases not_and_or.mp hcond with hba | hba
        · exact le_of_not_lt hba
        · exact le_trans (le_of_not_lt hba) (le_of_lt hp)

lemma foldl_update_best_inv (l : List (String × ℚ)) :
    ∀ acc processed, BestInv acc processed →
      BestInv (l.foldl update_best acc) (processed ++ l) := by
  induction l with
  | nil =>
    intro acc processed h
    simpa using h
  | cons e l ih =>
    intro acc processed h
    have hstep := ih (update_best acc e) (processed ++ [e]) (update_best_inv acc processed e h)
    simpa [List.append_assoc] using hstep

/-- Characterization of the selection fold from the empty accumulator. -/
lemma foldl_update_best_characterize (l : List (String × ℚ)) :
    BestInv (l.foldl update_best Option.none) l := by
  have h0 : BestInv Option.none ([] : List (String × ℚ)) := by
    intro x hx
    exact absurd hx (List.not_mem_nil x)
  simpa using foldl_update_best_inv l Option.none [] h0

/-- Once some entry is tracked, later entries with no larger savings never
displace it (the comparison is strict). -/
lemma foldl_update_best_keeps (e : String × ℚ) (l : List (String × ℚ))
    (h : ∀ x ∈ l, x.2 ≤ e.2) :
    l.foldl update_best (some e) = some e := by
  induction l with
  | nil => rfl
  | cons x l ih =>
    have hx : x.2 ≤ e.2 := h x (by simp)
    have hu : update_best (some e) x = some e := by
      simp [update_best, not_lt.mpr hx]
    rw [List.foldl_cons, hu]
    exact ih (fun y hy => h y (by simp [hy]))

/-- The first entry attaining the (positive) maximum wins the fold. -/
lemma foldl_update_best_first_max (l₁ l₂ : List (String × ℚ)) (e : String × ℚ)
    (hpos : 0 < e.2) (h₁ : ∀ x ∈ l₁, x.2 < e.2) (h₂ : ∀ x ∈ l₂, x.2 ≤ e.2) :
    (l₁ ++ e :: l₂).foldl update_best Option.none = some e := by
  induction l₁ with
  | nil =>
    simp only [List.nil_append, List.foldl_cons]
    have hu : update_best Option.none e = some e := by
      simp [update_best, hpos]
    rw [hu]
    exact foldl_update_best_keeps e l₂ h₂
  | cons x l₁ ih =>
    have hx : x.2 < e.2 := h₁ x (by simp)
    have ihx := ih (fun y hy => h₁ y (by simp [hy]))
    by_cases hx0 : 0 < x.2
    · -- x is tracked first, then displaced at e
      have hu : update_best Option.none x = some x := by
        simp [update_best, hx0]
      rw [List.cons_append, List.foldl_cons, hu]
      -- fold over l₁ from some x, then e displaces whatever is tracked
      have hinv : BestInv (l₁.foldl update_best (some x)) ((x :: l₁ : List (String × ℚ))) := by
        have h0 : BestInv (some x) [x] :=
          ⟨hx0, [], [], rfl, by simp, by simp⟩
        simpa using foldl_update_best_inv l₁ (some x) [x] h0
      rcases hacc : l₁.foldl update_best (some x) with _ | p
      · rw [hacc] at hinv
        exact absurd (hinv x (by simp)) (not_le.mpr hx0)
      · rw [hacc] at hinv
        obtain ⟨hp, m₁, m₂, hsplit, _, _⟩ := hinv
        have hpmem : p ∈ (x :: l₁ : List (String × ℚ)) := by
          rw [hsplit]
          simp
        have hplt : p.2 < e.2 := by
          rcases List.mem_cons.mp hpmem with hq | hq
          · subst hq; exact hx
          · exact h₁ p (by simp [hq])
        have hu2 : update_best (some p) e = some e := by
          simp [update_best, hplt, hpos]
        rw [List.foldl_append, hacc, List.foldl_cons, hu2]
        exact foldl_update_best_keeps e l₂ h₂
    · have hu : update_best Option.none x = Option.none := by
        simp [update_best, hx0]
      rw [List.cons_append, List.foldl_cons, hu]
      exact ihx

/-- Relating the monadic option loop to the selection fold: a successful run
appends the summaries of the evaluated options and folds `update_best` over
their `(option_id, annual_savings)` pairs. -/
lemma foldlM_process_state (oh T cpy : ℚ) (opts : List AutomationOption)
    (tasks : List PTask) (robots : List RobotRecord) :
    ∀ (cbr : List CostBenefitEntry) (st st' : RecState),
      cbr.foldlM (process_option oh opts tasks T cpy robots) st = Except.ok st' →
      ∃ new, st'.option_savings = st.option_savings ++ new ∧
        st'.best = (pairsOf new).foldl update_best st.best := by
  intro cbr
  induction cbr with
  | nil =>
    intro st st' h
    simp only [List.foldlM_nil, pure, Except.pure, Except.ok.injEq] at h
    exact ⟨[], by simp [h.symm, pairsOf], by simp [h.symm, pairsOf]⟩
  | cons e rest ih =>
    intro st st' h
    rw [List.foldlM_cons] at h
    cases h1 : process_option oh opts tasks T cpy robots st e with
    | error ex =>
      rw [h1] at h
      simp [Bind.bind, Except.bind] at h
    | ok st₁ =>
      rw [h1] at h
      simp only [Bind.bind, Except.bind] at h
      obtain ⟨new, hN, hB⟩ := ih st₁ st' h
      rcases process_option_ok oh opts tasks T cpy robots st st₁ e h1 with
        ⟨_, hsame⟩ | ⟨ao, m, capex, hf, hm, hc, hst⟩
      · subst hsame
        exact ⟨new, hN, hB⟩
      · subst hst
        refine ⟨option_summary oh cpy tasks e.option_id ao.assignments.length m
            (build_robot_cost_map e.robot_cost_comparison) :: new, ?_, ?_⟩
        · rw [hN]
          simp
        · rw [hB]
          simp [pairsOf, option_summary]

/-- The early return of `determine_recommendation_new` (lines 165–169). -/
lemma drn_early_return (cbr : List CostBenefitEntry) (oh : ℚ)
    (opts : List AutomationOption) (tasks : List PTask) (T H : ℚ)
    (robots : List RobotRecord) (h : cbr = [] ∨ oh ≤ 0) :
    determine_recommendation_new cbr oh opts tasks T H robots =
      Except.ok
        { recommended_option_id := Option.none
          justification := "No valid cost comparison data available or human cost is non-positive."
          option_savings := []
          annual_projections := []
          chart_data_verified := false } := by
  have hguard : (cbr.isEmpty || decide (oh ≤ 0)) = true := by
    rcases h with h | h
    · subst h; simp
    · simp [h]
  simp [determine_recommendation_new, hguard, pure, Except.pure]

/-- Success shape of `determine_recommendation_new` past the early return:
the result carries the loop state's lists, and the recommendation is the
tracked best option's id when that id is truthy and its savings positive,
else the `"No_Automation"` sentinel. -/
lemma drn_ok_cases (cbr : List CostBenefitEntry) (oh : ℚ)
    (opts : List AutomationOption) (tasks : List PTask) (T H : ℚ)
    (robots : List RobotRecord) (rec : Recommendation)
    (h : determine_recommendation_new cbr oh opts tasks T H robots = Except.ok rec)
    (hne : cbr ≠ []) (hoh : 0 < oh) :
    ∃ st, cbr.foldlM
        (process_option oh opts tasks T (cycles_per_year tasks H) robots)
        { best := Option.none, option_savings := [], annual_projections := [] } =
          Except.ok st ∧
      rec.option_savings = st.option_savings ∧
      rec.annual_projections = st.annual_projections ∧
      ((∃ p, st.best = some p ∧ p.1 ≠ "" ∧ 0 < p.2 ∧
          rec.recommended_option_id = some p.1) ∨
       ((∀ p, st.best = some p → ¬(p.1 ≠ "" ∧ 0 < p.2)) ∧
          rec.recommended_option_id = some "No_Automation")) := by
  have hguard : (cbr.isEmpty || decide (oh ≤ 0)) = false := by
    simp [List.isEmpty_eq_false.mpr hne, not_le.mpr hoh]
  unfold determine_recommendation_new at h
  dsimp only [] at h
  rw [if_neg (by simp [hguard])] at h
  cases hst : cbr.foldlM
      (process_option oh opts tasks T (cycles_per_year tasks H) robots)
      { best := Option.none, option_savings := [], annual_projections := [] } with
  | error ex =>
    rw [hst] at h
    simp [Bind.bind, Except.bind] at h
  | ok st =>
    rw [hst] at h
    simp only [Bind.bind, Except.bind] at h
    refine ⟨st, rfl, ?_⟩
    cases hbest : st.best with
    | none =>
      rw [hbest] at h
      dsimp only [] at h
      simp only [pure, Except.pure, Except.ok.injEq] at h
      subst h
      refine ⟨rfl, rfl, Or.inr ⟨?_, rfl⟩⟩
      intro p hp
      exact absurd hp (by simp)
    | some p =>
      rw [hbest] at h
      dsimp only [] at h
      by_cases hcond : p.1 ≠ "" ∧ 0 < p.2
      · rw [if_pos hcond] at h
        simp only [pure, Except.pure, Except.ok.injEq] at h
        subst h
        exact ⟨rfl, rfl, Or.inl ⟨p, rfl, hcond.1, hcond.2, rfl⟩⟩
      · rw [if_neg hcond] at h
        simp only [pure, Except.pure, Except.ok.injEq] at h
        subst h
        refine ⟨rfl, rfl, Or.inr ⟨?_, rfl⟩⟩
        intro p' hp'
        injection hp' with hpp
        subst hpp
        exact hcond

/-- C3 amended: (i) an empty cost-comparison list or non-positive human cost
yields `recommended_option_id = None` (a distinct terminal state); otherwise
(ii) if every evaluated option has non-positive annual savings the result is
exactly the `"No_Automation"` sentinel — an option with non-positive savings
is never recommended; and (iii) if some evaluated option has positive annual
savings, the tracked winner is the first evaluated option attaining the
strictly highest annual savings, and it is recommended **provided its id is
a truthy (non-empty) string** — an empty-string id fails the final
`if best_option_id` truthiness check and degrades to `"No_Automation"`. -/
theorem C3_recommendation_selection (cbr : List CostBenefitEntry) (oh : ℚ)
    (opts : List AutomationOption) (tasks : List PTask) (T H : ℚ)
    (robots : List RobotRecord) (rec : Recommendation)
    (h : determine_recommendation_new cbr oh opts tasks T H robots = Except.ok rec) :
    ((cbr = [] ∨ oh ≤ 0) → rec.recommended_option_id = Option.none) ∧
    (cbr ≠ [] → 0 < oh →
      ((∀ e ∈ rec.option_savings, e.annual_savings ≤ 0) →
        rec.recommended_option_id = some "No_Automation") ∧
      ((∃ e ∈ rec.option_savings, 0 < e.annual_savings) →
        ∃ l₁ b l₂, pairsOf rec.option_savings = l₁ ++ b :: l₂ ∧ 0 < b.2 ∧
          (∀ x ∈ l₁, x.2 < b.2) ∧ (∀ x ∈ l₂, x.2 ≤ b.2) ∧
          rec.recommended_option_id =
            (if b.1 ≠ "" then some b.1 else some "No_Automation"))) := by
  constructor
  · intro hdeg
    have heq := drn_early_return cbr oh opts tasks T H robots hdeg
    rw [heq] at h
    injection h with hh
    rw [← hh]
  · intro hne hoh
    obtain ⟨st, hst, hOS, hAP, hcases⟩ :=
      drn_ok_cases cbr oh opts tasks T H robots rec h hne hoh
    obtain ⟨new, hnew, hbest⟩ :=
      foldlM_process_state oh T (cycles_per_year tasks H) opts tasks robots cbr _ st hst
    dsimp only [] at hnew hbest
    rw [List.nil_append] at hnew
    have hrecOS : rec.option_savings = new := by rw [hOS, hnew]
    have hBI := foldl_update_best_characterize (pairsOf new)
    rw [← hbest] at hBI
    constructor
    · intro hall
      cases hb : st.best with
      | some p =>
        rw [hb] at hBI
        obtain ⟨hp, l₁, l₂, hsplit, _, _⟩ := hBI
        have hpm : p ∈ pairsOf new := by
          rw [hsplit]
          simp
        obtain ⟨e, he, hex⟩ := List.mem_map.mp hpm
        have hle : e.annual_savings ≤ 0 := hall e (by rw [hrecOS]; exact he)
        rw [← hex] at hp
        exact absurd hp (not_lt.mpr hle)
      | none =>
        rcases hcases with ⟨p, hp, _⟩ | ⟨_, hrec⟩
        · rw [hb] at hp
          exact absurd hp (by simp)
        · exact hrec
    · rintro ⟨e, he, hepos⟩
      cases hb : st.best with
      | none =>
        rw [hb] at hBI
        simp only [BestInv] at hBI
        have hmem : (e.option_id, e.annual_savings) ∈ pairsOf new :=
          List.mem_map_of_mem _ (hrecOS ▸ he)
        have := hBI _ hmem
        exact absurd hepos (not_lt.mpr this)
      | some p =>
        rw [hb] at hBI
        obtain ⟨hp, l₁, l₂, hsplit, h₁, h₂⟩ := hBI
        refine ⟨l₁, p, l₂, by rw [hrecOS]; exact hsplit, hp, h₁, h₂, ?_⟩
        rcases hcases with ⟨p', hp', hne'', hpos', hrec⟩ | ⟨hforall, hrec⟩
        · rw [hb] at hp'
          injection hp' with hpp
          subst hpp
          rw [hrec, if_pos hne'']
        · have hnp := hforall p hb
          have hpe : ¬ p.1 ≠ "" := fun hne3 => hnp ⟨hne3, hp⟩
          rw [hrec, if_neg (by simpa using hpe)]

/-- C10 amended: when several evaluated options tie for the strictly highest
positive annual savings, the strict greater-than comparison keeps the
incumbent: the first option of the cost-benefit results list attaining the
maximum is the tracked winner, and it is the recommendation **provided its
id is non-empty** (an empty-string winner id degrades to `"No_Automation"`
at the final truthiness check). -/
theorem C10_tie_keeps_first (cbr : List CostBenefitEntry) (oh : ℚ)
    (opts : List AutomationOption) (tasks : List PTask) (T H : ℚ)
    (robots : List RobotRecord) (rec : Recommendation)
    (h : determine_recommendation_new cbr oh opts tasks T H robots = Except.ok rec)
    (hne : cbr ≠ []) (hoh : 0 < oh)
    (l₁ l₂ : List (String × ℚ)) (b : String × ℚ)
    (hsplit : pairsOf rec.option_savings = l₁ ++ b :: l₂)
    (hbpos : 0 < b.2) (h₁ : ∀ x ∈ l₁, x.2 < b.2) (h₂ : ∀ x ∈ l₂, x.2 ≤ b.2)
    (hbne : b.1 ≠ "") :
    rec.recommended_option_id = some b.1 := by
  obtain ⟨st, hst, hOS, hAP, hcases⟩ :=
    drn_ok_cases cbr oh opts tasks T H robots rec h hne hoh
  obtain ⟨new, hnew, hbest⟩ :=
    foldlM_process_state oh T (cycles_per_year tasks H) opts tasks robots cbr _ st hst
  dsimp only [] at hnew hbest
  rw [List.nil_append] at hnew
  have hpairs : pairsOf new = l₁ ++ b :: l₂ := by
    rw [← hnew, ← hOS]
    exact hsplit
  have hb : st.best = some b := by
    rw [hbest, hpairs]
    exact foldl_update_best_first_max l₁ l₂ b hbpos h₁ h₂
  rcases hcases with ⟨p', hp', _, _, hrec⟩ | ⟨hforall, _⟩
  · rw [hb] at hp'
    injection hp' with hpp
    subst hpp
    exact hrec
  · exact absurd ⟨hbne, hbpos⟩ (hforall b hb)

/-! ## C4: option CAPEX -/

/-- Claim-side per-robot CAPEX, written from C4's words: catalog purchase
price when present and numeric, else the name-keyed default; end-effector
percent when present and numeric, else the `0.25` default. -/
def claimed_robot_capex (available_robots : List RobotRecord) (name : String) : ℚ :=
  let price : ℚ :=
    match robot_metadata_lookup available_robots name with
    | some info =>
      match info.purchase_price with
      | some (JVal.num q) => q
      | _ => default_purchase_price name
    | Option.none => default_purchase_price name
  let pct : ℚ :=
    match robot_metadata_lookup available_robots name with
    | some info =>
      match info.end_effector_cost_percent with
      | some (JVal.num e) => e
      | _ => 0.25
    | Option.none => 0.25
  price * (1 + pct)

/-- Claim-side option CAPEX, written from C4's words: summed over the
*distinct robot names referenced by the assignments*. -/
def claimed_option_capex (available_robots : List RobotRecord)
    (assignments : List Assignment) : ℚ :=
  (((assignments.filterMap (fun a => a.robot_name)).dedup).map
    (claimed_robot_capex available_robots)).sum

/-- The catalogued `end_effector_cost_percent` of this name, if any, is
absent or numeric — the condition under which the code's `1 + pct`
arithmetic does not raise. -/
def pct_ok (available_robots : List RobotRecord) (name : String) : Prop :=
  match robot_metadata_lookup available_robots name with
  | some info =>
    info.end_effector_cost_percent = Option.none ∨
      ∃ q, info.end_effector_cost_percent = some (JVal.num q)
  | Option.none => True

lemma capex_for_robot_ok (available_robots : List RobotRecord) (name : String)
    (h : pct_ok available_robots name) :
    capex_for_robot available_robots name =
      Except.ok (claimed_robot_capex available_robots name) := by
  unfold pct_ok at h
  unfold capex_for_robot claimed_robot_capex
  cases hi : robot_metadata_lookup available_robots name with
  | none => simp [hi]
  | some info =>
    rw [hi] at h
    rcases h with h | ⟨q, h⟩ <;> simp [hi, h]

lemma exc_bind_ok {α β : Type} (a : α) (f : α → Except PyExn β) :
    (Except.ok a >>= f) = f a := rfl

lemma exc_pure_ok {α : Type} (a : α) : (pure a : Except PyExn α) = Except.ok a := rfl

lemma robot_capex_total_ok (available_robots : List RobotRecord) :
    ∀ (names : List String), (∀ n ∈ names, pct_ok available_robots n) →
      ∀ acc : ℚ,
        names.foldlM (fun acc rn => do
            let c ← capex_for_robot available_robots rn
            pure (acc + c)) acc =
          Except.ok (acc + (names.map (claimed_robot_capex available_robots)).sum) := by
  intro names
  induction names with
  | nil =>
    intro _ acc
    simp [List.foldlM_nil, pure, Except.pure]
  | cons n rest ih =>
    intro hok acc
    rw [List.foldlM_cons]
    rw [capex_for_robot_ok available_robots n (hok n (by simp)),
      exc_bind_ok, exc_pure_ok, exc_bind_ok]
    rw [ih (fun x hx => hok x (by simp [hx])) (acc + claimed_robot_capex available_robots n)]
    simp [add_assoc]

/-- The `(task_id, robot_name)` pairs extracted from well-formed
assignments. -/
def assignment_pairs (assignments : List Assignment) : List (Int × String) :=
  assignments.filterMap (fun a =>
    match a.task_id, a.robot_name with
    | some t, some r => some (t, r)
    | _, _ => Option.none)

lemma dictInsert_fresh {κ ν : Type} [DecidableEq κ] (m : List (κ × ν)) (k : κ) (v : ν)
    (h : ∀ p ∈ m, p.1 ≠ k) : dictInsert m k v = m ++ [(k, v)] := by
  unfold dictInsert
  congr 1
  apply List.filter_eq_self.mpr
  intro p hp
  simpa using h p hp

lemma build_map_wf :
    ∀ (assignments : List Assignment) (acc : List (Int × String)),
      (∀ a ∈ assignments, a.task_id.isSome ∧ a.robot_name.isSome) →
      ((acc.map Prod.fst) ++ assignments.filterMap (fun a => a.task_id)).Nodup →
      assignments.foldlM (fun m assign => do
          let tid ← pyGetKey "task_id" assign.task_id
          let rn ← pyGetKey "robot_name" assign.robot_name
          pure (dictInsert m tid rn)) acc =
        Except.ok (acc ++ assignment_pairs assignments) := by
  intro assignments
  induction assignments with
  | nil =>
    intro acc _ _
    simp [assignment_pairs, List.foldlM_nil, pure, Except.pure]
  | cons a rest ih =>
    intro acc hwf hnd
    obtain ⟨ht, hr⟩ := hwf a (by simp)
    obtain ⟨t, ht'⟩ := Option.isSome_iff_exists.mp ht
    obtain ⟨r, hr'⟩ := Option.isSome_iff_exists.mp hr
    rw [List.foldlM_cons]
    have hfresh : ∀ p ∈ acc, p.1 ≠ t := by
      intro p hp hpt
      rw [List.filterMap_cons, ht'] at hnd
      have hdisj := (List.nodup_append.mp hnd).2.2
      exact hdisj (List.mem_map_of_mem _ hp) (by simp [hpt])
    have hstep : (do
        let tid ← pyGetKey "task_id" a.task_id
        let rn ← pyGetKey "robot_name" a.robot_name
        pure (dictInsert acc tid rn) : Except PyExn (List (Int × String))) =
          Except.ok (acc ++ [(t, r)]) := by
      rw [ht', hr']
      simp [pyGetKey, Bind.bind, Except.bind, pure, Except.pure,
        dictInsert_fresh acc t r hfresh]
    rw [hstep, exc_bind_ok]
    have hnd' : (((acc ++ [(t, r)]).map Prod.fst) ++
        rest.filterMap (fun a => a.task_id)).Nodup := by
      rw [List.filterMap_cons, ht'] at hnd
      simpa [List.append_assoc] using hnd
    rw [ih (acc ++ [(t, r)]) (fun x hx => hwf x (by simp [hx])) hnd']
    have hpc : assignment_pairs (a :: rest) = (t, r) :: assignment_pairs rest := by
      simp [assignment_pairs, List.filterMap_cons, ht', hr']
    rw [hpc]
    simp [List.append_assoc]

lemma assignment_pairs_snd (assignments : List Assignment)
    (hwf : ∀ a ∈ assignments, a.task_id.isSome ∧ a.robot_name.isSome) :
    (assignment_pairs assignments).map Prod.snd =
      assignments.filterMap (fun a => a.robot_name) := by
  induction assignments with
  | nil => simp [assignment_pairs]
  | cons a rest ih =>
    obtain ⟨ht, hr⟩ := hwf a (by simp)
    obtain ⟨t, ht'⟩ := Option.isSome_iff_exists.mp ht
    obtain ⟨r, hr'⟩ := Option.isSome_iff_exists.mp hr
    rw [assignment_pairs, List.filterMap_cons, ht', hr', List.filterMap_cons, hr']
    simpa [assignment_pairs] using ih (fun x hx => hwf x (by simp [hx]))

/-- C4 amended: for an option whose assignments all carry `task_id` and
`robot_name`, whose task ids are pairwise distinct, and whose referenced
robots' `end_effector_cost_percent` is absent or numeric, the option's CAPEX
equals the sum over the distinct robot names referenced by its assignments
of (purchase price, defaulting by name heuristic when missing or
non-numeric) × (1 + end-effector percent, defaulting to 0.25 when absent).
Without the distinct-task-id hypothesis the code sums over the values of the
task→robot dict, in which a later assignment for the same task id has
overwritten an earlier one (see the counterexample). -/
theorem C4_option_capex (available_robots : List RobotRecord)
    (assignments : List Assignment)
    (hwf : ∀ a ∈ assignments, a.task_id.isSome ∧ a.robot_name.isSome)
    (hnd : (assignments.filterMap (fun a => a.task_id)).Nodup)
    (hpct : ∀ a ∈ assignments, ∀ rn, a.robot_name = some rn →
      pct_ok available_robots rn) :
    ∃ m, build_task_to_robot_map assignments = Except.ok m ∧
      robot_capex_total available_robots (unique_robots_of m) =
        Except.ok (claimed_option_capex available_robots assignments) := by
  have hbuild : build_task_to_robot_map assignments =
      Except.ok (assignment_pairs assignments) := by
    have hb := build_map_wf assignments [] hwf (by simpa using hnd)
    simpa [build_task_to_robot_map] using hb
  refine ⟨assignment_pairs assignments, hbuild, ?_⟩
  have hnames : unique_robots_of (assignment_pairs assignments) =
      (assignments.filterMap (fun a => a.robot_name)).dedup := by
    rw [unique_robots_of, assignment_pairs_snd assignments hwf]
  rw [hnames]
  have hpok : ∀ n ∈ (assignments.filterMap (fun a => a.robot_name)).dedup,
      pct_ok available_robots n := by
    intro n hn
    obtain ⟨a, ha, ha'⟩ := List.mem_filterMap.mp (List.mem_dedup.mp hn)
    exact hpct a ha n ha'
  have htotal := robot_capex_total_ok available_robots _ hpok 0
  simpa [robot_capex_total, claimed_option_capex] using htotal

/-! ## Concrete scenario inputs for witnesses and counterexamples -/

/-- One human task with id 1. -/
def taskH : PTask := { id := some 1, actor_type := some "human" }

/-- Assignment of task 1 to robot `"R"`. -/
def asgR : Assignment := { task_id := some 1, robot_name := some "R" }

/-- Cost-comparison entry for `"R"`: effective cost 1 versus human cost 10. -/
def ccR : CostComparisonEntry :=
  { robot_name := "R", robot_effective_cost_per_human_min := CostResult.val 1,
    human_cost_per_min := 10, is_cheaper := CheaperFlag.b true }

def optA : AutomationOption := { option_id := some "A", assignments := [asgR] }

def cbeA : CostBenefitEntry := { option_id := "A", robot_cost_comparison := [ccR] }

/-- Expected summary for option `"A"` in the scenario `oh = 10`, `T = H = 1`:
1 human task, robot cost 1 ⇒ savings 9 per cycle, 60 cycles/hour ⇒ 3120
cycles/year, annual savings 28080, 90% reduction. -/
def sumA : OptionSavings :=
  { option_id := "A", num_automated_tasks := 1, num_tasks_with_savings := 1,
    savings_per_cycle := 9, annual_savings := 28080, percent_savings := 90 }

/-- Expected projection for option `"A"`: CAPEX from the name-keyed default
(100000 × 1.25, robot `"R"` uncatalogued). -/
def projA : OptionProjection :=
  { option_id := "A", baseline_cost_per_cycle := 10, robot_cost_per_cycle := 1,
    annual_baseline_cost := 31200, annual_cost_with_automation := 3120,
    robot_capex := 125000,
    cumulative_costs_by_year := [125000, 128120],
    baseline_cumulative_costs_by_year := [0, 31200] }

def recA : Recommendation :=
  { recommended_option_id := some "A",
    justification := justification_recommended "A",
    option_savings := [sumA], annual_projections := [projA],
    chart_data_verified := true }

lemma drn_eval_A :
    determine_recommendation_new [cbeA] 10 [optA] [taskH] 1 1 [] = Except.ok recA := by
  have hne : ¬ ("A" = "") := by decide
  norm_num [hne, List.range_succ, List.range_zero, Function.comp,
    determine_recommendation_new, cycles_per_year, cycles_per_hour, cycle_time_mins,
    human_tasks, taskH, cbeA, optA, asgR, ccR, recA, sumA, projA,
    List.foldlM_cons, List.foldlM_nil, process_option,
    build_task_to_robot_map, build_robot_cost_map, dictInsert, dictLookup, pyGetKey,
    robot_capex_total, capex_for_robot, robot_metadata_lookup, default_purchase_price,
    containsLower, hasSubChars, startsWithChars, unique_robots_of,
    option_summary, option_projection_of, total_human_cost_per_cycle,
    total_cost_with_automation_per_cycle, per_task_automated_cost, task_duration_mins,
    num_tasks_with_savings_of, update_best, cumulative_costs_by_year,
    baseline_cumulative_costs_by_year, projection_years, pyInt,
    Bind.bind, Except.bind, pure, Except.pure, List.find?, List.filter, weeks_per_year]

/-- Option with the *empty-string* id (legal JSON, falsy in Python). -/
def optE : AutomationOption := { option_id := some "", assignments := [asgR] }

def cbeE : CostBenefitEntry := { option_id := "", robot_cost_comparison := [ccR] }

def optB : AutomationOption := { option_id := some "B", assignments := [asgR] }

def cbeB : CostBenefitEntry := { option_id := "B", robot_cost_comparison := [ccR] }

def sumE : OptionSavings :=
  { option_id := "", num_automated_tasks := 1, num_tasks_with_savings := 1,
    savings_per_cycle := 9, annual_savings := 28080, percent_savings := 90 }

def projE : OptionProjection :=
  { option_id := "", baseline_cost_per_cycle := 10, robot_cost_per_cycle := 1,
    annual_baseline_cost := 31200, annual_cost_with_automation := 3120,
    robot_capex := 125000,
    cumulative_costs_by_year := [125000, 128120],
    baseline_cumulative_costs_by_year := [0, 31200] }

def recE : Recommendation :=
  { recommended_option_id := some "No_Automation",
    justification := justification_no_automation,
    option_savings := [sumE], annual_projections := [projE],
    chart_data_verified := true }

def sumB : OptionSavings :=
  { option_id := "B", num_automated_tasks := 1, num_tasks_with_savings := 1,
    savings_per_cycle := 9, annual_savings := 28080, percent_savings := 90 }

def projB : OptionProjection :=
  { option_id := "B", baseline_cost_per_cycle := 10, robot_cost_per_cycle := 1,
    annual_baseline_cost := 31200, annual_cost_with_automation := 3120,
    robot_capex := 125000,
    cumulative_costs_by_year := [125000, 128120],
    baseline_cumulative_costs_by_year := [0, 31200] }

def recEB : Recommendation :=
  { recommended_option_id := some "No_Automation",
    justification := justification_no_automation,
    option_savings := [sumE, sumB], annual_projections := [projE, projB],
    chart_data_verified := true }

lemma drn_eval_E :
    determine_recommendation_new [cbeE] 10 [optE] [taskH] 1 1 [] = Except.ok recE := by
  norm_num [List.range_succ, List.range_zero, Function.comp,
    determine_recommendation_new, cycles_per_year, cycles_per_hour, cycle_time_mins,
    human_tasks, taskH, cbeE, optE, asgR, ccR, recE, sumE, projE,
    List.foldlM_cons, List.foldlM_nil, process_option,
    build_task_to_robot_map, build_robot_cost_map, dictInsert, dictLookup, pyGetKey,
    robot_capex_total, capex_for_robot, robot_metadata_lookup, default_purchase_price,
    containsLower, hasSubChars, startsWithChars, unique_robots_of,
    option_summary, option_projection_of, total_human_cost_per_cycle,
    total_cost_with_automation_per_cycle, per_task_automated_cost, task_duration_mins,
    num_tasks_with_savings_of, update_best, cumulative_costs_by_year,
    baseline_cumulative_costs_by_year, projection_years, pyInt,
    Bind.bind, Except.bind, pure, Except.pure, List.find?, List.filter, weeks_per_year]

lemma drn_eval_EB :
    determine_recommendation_new [cbeE, cbeB] 10 [optE, optB] [taskH] 1 1 [] =
      Except.ok recEB := by
  have hd1 : decide ("" = "B") = false := by decide
  have hd2 : decide ("B" = "") = false := by decide
  norm_num [hd1, hd2, List.range_succ, List.range_zero, Function.comp,
    determine_recommendation_new, cycles_per_year, cycles_per_hour, cycle_time_mins,
    human_tasks, taskH, cbeE, cbeB, optE, optB, asgR, ccR, recEB, sumE, sumB,
    projE, projB, List.foldlM_cons, List.foldlM_nil, process_option,
    build_task_to_robot_map, build_robot_cost_map, dictInsert, dictLookup, pyGetKey,
    robot_capex_total, capex_for_robot, robot_metadata_lookup, default_purchase_price,
    containsLower, hasSubChars, startsWithChars, unique_robots_of,
    option_summary, option_projection_of, total_human_cost_per_cycle,
    total_cost_with_automation_per_cycle, per_task_automated_cost, task_duration_mins,
    num_tasks_with_savings_of, update_best, cumulative_costs_by_year,
    baseline_cumulative_costs_by_year, projection_years, pyInt,
    Bind.bind, Except.bind, pure, Except.pure, List.find?, List.filter, weeks_per_year]

/-- C3 as stated is false: in the empty-id scenario an evaluated option has
strictly positive (indeed the highest) annual savings, yet the
recommendation is the `"No_Automation"` sentinel — which is not the id of
any evaluated option — because the winning id `""` is falsy in the final
`if best_option_id` check. -/
theorem C3_counterexample :
    determine_recommendation_new [cbeE] 10 [optE] [taskH] 1 1 [] = Except.ok recE ∧
    (∃ e ∈ recE.option_savings, 0 < e.annual_savings) ∧
    recE.recommended_option_id = some "No_Automation" ∧
    (∀ e ∈ recE.option_savings, e.option_id ≠ "No_Automation") := by
  refine ⟨drn_eval_E, ⟨sumE, by simp [recE], by norm_num [sumE]⟩, by simp [recE], ?_⟩
  intro e he
  simp only [recE, List.mem_singleton] at he
  subst he
  simp [sumE]

/-- Witness for the amended C3 in the happy-path scenario: option `"A"`
(non-empty id, positive savings) is recommended. -/
theorem C3_recommendation_selection_witness :
    (([cbeA] : List CostBenefitEntry) = [] ∨ (10 : ℚ) ≤ 0 →
      recA.recommended_option_id = Option.none) ∧
    (([cbeA] : List CostBenefitEntry) ≠ [] → (0 : ℚ) < 10 →
      ((∀ e ∈ recA.option_savings, e.annual_savings ≤ 0) →
        recA.recommended_option_id = some "No_Automation") ∧
      ((∃ e ∈ recA.option_savings, 0 < e.annual_savings) →
        ∃ l₁ b l₂, pairsOf recA.option_savings = l₁ ++ b :: l₂ ∧ 0 < b.2 ∧
          (∀ x ∈ l₁, x.2 < b.2) ∧ (∀ x ∈ l₂, x.2 ≤ b.2) ∧
          recA.recommended_option_id =
            (if b.1 ≠ "" then some b.1 else some "No_Automation"))) :=
  C3_recommendation_selection [cbeA] 10 [optA] [taskH] 1 1 [] recA drn_eval_A

/-- C10 as stated is false: options `""` and `"B"` tie for the strictly
highest positive annual savings; the first of them in the cost-benefit
results list is the option with id `""`, but the recommendation is
`"No_Automation"`, not that first option. -/
theorem C10_counterexample :
    determine_recommendation_new [cbeE, cbeB] 10 [optE, optB] [taskH] 1 1 [] =
      Except.ok recEB ∧
    pairsOf recEB.option_savings = [("", 28080), ("B", 28080)] ∧
    recEB.recommended_option_id = some "No_Automation" ∧
    recEB.recommended_option_id ≠ some "" := by
  refine ⟨drn_eval_EB, by simp [pairsOf, recEB, sumE, sumB], by simp [recEB], by simp [recEB]⟩

/-- Witness for the amended C10 in the happy-path scenario. -/
theorem C10_tie_keeps_first_witness :
    recA.recommended_option_id = some ("A", (28080 : ℚ)).1 :=
  C10_tie_keeps_first [cbeA] 10 [optA] [taskH] 1 1 [] recA drn_eval_A
    (by simp) (by norm_num) [] [] ("A", 28080)
    (by simp [pairsOf, recA, sumA]) (by norm_num) (by simp) (by simp) (by simp)

/-- Loop state before processing any option. -/
def st0 : RecState :=
  { best := Option.none, option_savings := [], annual_projections := [] }

/-- Loop state after processing option `"A"` in the happy-path scenario. -/
def stA : RecState :=
  { best := some ("A", 28080), option_savings := [sumA],
    annual_projections := [projA] }

lemma po_eval_A :
    process_option 10 [optA] [taskH] 1 3120 [] st0 cbeA = Except.ok stA := by
  norm_num [List.range_succ, List.range_zero, Function.comp,
    taskH, cbeA, optA, asgR, ccR, sumA, projA, st0, stA, process_option,
    human_tasks, build_task_to_robot_map, build_robot_cost_map, dictInsert,
    dictLookup, pyGetKey, robot_capex_total, capex_for_robot,
    robot_metadata_lookup, default_purchase_price, containsLower, hasSubChars,
    startsWithChars, unique_robots_of, option_summary, option_projection_of,
    total_human_cost_per_cycle, total_cost_with_automation_per_cycle,
    per_task_automated_cost, task_duration_mins, num_tasks_with_savings_of,
    update_best, cumulative_costs_by_year, baseline_cumulative_costs_by_year,
    projection_years, pyInt, List.foldlM_cons, List.foldlM_nil,
    Bind.bind, Except.bind, pure, Except.pure, List.find?, List.filter]

/-- Witness for C5 in the happy-path scenario. -/
theorem C5_per_cycle_and_annual_witness :
    ∃ m s p,
      build_task_to_robot_map optA.assignments = Except.ok m ∧
      stA.option_savings = st0.option_savings ++ [s] ∧
      stA.annual_projections = st0.annual_projections ++ [p] ∧
      p.baseline_cost_per_cycle =
        (([taskH] : List PTask).countP (fun t => t.actor_type = some "human") : ℚ) * 10 ∧
      p.robot_cost_per_cycle =
        ((human_tasks [taskH]).map
          (per_task_automated_cost 10 m (build_robot_cost_map cbeA.robot_cost_comparison))).sum ∧
      s.savings_per_cycle = p.baseline_cost_per_cycle - p.robot_cost_per_cycle ∧
      s.annual_savings = s.savings_per_cycle * 3120 ∧
      p.annual_baseline_cost = p.baseline_cost_per_cycle * 3120 ∧
      p.annual_cost_with_automation = p.robot_cost_per_cycle * 3120 :=
  C5_per_cycle_and_annual 10 3120 1 [optA] [taskH] [] st0 stA cbeA optA
    po_eval_A (by simp [optA, cbeA, List.find?])

/-- Two assignments sharing `task_id = 1`, referencing robots `"A1"` and
`"B1"`. -/
def asgA1 : Assignment := { task_id := some 1, robot_name := some "A1" }

def asgB1 : Assignment := { task_id := some 1, robot_name := some "B1" }

/-- Catalogued robots `"A1"` and `"B1"`, each with a numeric purchase price
of 100000 and no end-effector field (pct defaults to 0.25). -/
def rA1 : RobotRecord :=
  { robot_name := some "A1", purchase_price := some (JVal.num 100000),
    op_cost_per_min := some (JVal.num 1), end_effector_cost_percent := Option.none }

def rB1 : RobotRecord :=
  { robot_name := some "B1", purchase_price := some (JVal.num 100000),
    op_cost_per_min := some (JVal.num 1), end_effector_cost_percent := Option.none }

/-- C4 as stated is false: with two assignments for the *same* task id, the
task→robot dict keeps only the later robot `"B1"`, so the code's CAPEX is
`100000 × 1.25 = 125000`, while the sum over the distinct robot names
referenced by the assignments (`"A1"` and `"B1"`) is 250000. -/
theorem C4_counterexample :
    build_task_to_robot_map [asgA1, asgB1] = Except.ok [(1, "B1")] ∧
    robot_capex_total [rA1, rB1] (unique_robots_of [(1, "B1")]) =
      Except.ok 125000 ∧
    claimed_option_capex [rA1, rB1] [asgA1, asgB1] = 250000 ∧
    (125000 : ℚ) ≠ 250000 := by
  have d1 : decide ("A1" = "B1") = false := by decide
  have d2 : decide ("B1" = "A1") = false := by decide
  have d3 : decide ("A1" = "A1") = true := by decide
  have d4 : decide ("B1" = "B1") = true := by decide
  have n1 : ¬ ("B1" = "") := by decide
  have n2 : ¬ ("A1" = "") := by decide
  have n3 : ¬ ("A1" = "B1") := by decide
  refine ⟨?_, ?_, ?_, by norm_num⟩
  · simp [build_task_to_robot_map, asgA1, asgB1, pyGetKey, dictInsert,
      List.foldlM_cons, List.foldlM_nil, Bind.bind, Except.bind, pure, Except.pure]
  · norm_num [d1, d2, d3, d4, n1, n2, n3, robot_capex_total, unique_robots_of,
      capex_for_robot, robot_metadata_lookup, rA1, rB1, List.foldlM_cons,
      List.foldlM_nil, Bind.bind, Except.bind, pure, Except.pure, List.filter,
      List.getLast?]
  · norm_num [d1, d2, d3, d4, n1, n2, n3, claimed_option_capex,
      claimed_robot_capex, robot_metadata_lookup, rA1, rB1, asgA1, asgB1,
      List.filterMap, List.dedup, List.filter, List.getLast?]

/-- Assignment of task 1 to the uncatalogued robot `"Digit-2"`. -/
def asgD : Assignment := { task_id := some 1, robot_name := some "Digit-2" }

/-- Witness for the amended C4: the `"Digit-2"` option with an empty catalog
— the name-keyed default fires (`"digit"` ⊂ `"digit-2"`) and the robot
contributes `200000 × 1.25 = 250000` to CAPEX. -/
theorem C4_option_capex_witness :
    (∃ m, build_task_to_robot_map [asgD] = Except.ok m ∧
      robot_capex_total [] (unique_robots_of m) =
        Except.ok (claimed_option_capex [] [asgD])) ∧
    claimed_option_capex [] [asgD] = 250000 := by
  constructor
  · exact C4_option_capex [] [asgD]
      (by intro a ha; simp only [List.mem_singleton] at ha; subst ha; simp [asgD])
      (by simp [asgD])
      (by
        intro a ha rn hrn
        simp only [pct_ok, robot_metadata_lookup]
        rcases eq_or_ne rn "" with h | h <;> simp [h])
  · have h1 : containsLower "Digit-2" "atlas" = false := by decide
    have h2 : containsLower "Digit-2" "jvrc" = false := by decide
    have h3 : containsLower "Digit-2" "digit" = true := by decide
    norm_num [claimed_option_capex, claimed_robot_capex, robot_metadata_lookup,
      asgD, default_purchase_price, h1, h2, h3, List.filterMap, List.dedup]

/-! ## C8, C9: orchestrator validation and fault behaviour -/

/-- The early-return recommendation dict (observational model, see
`Recommendation`). -/
def recEarly : Recommendation :=
  { recommended_option_id := Option.none
    justification := "No valid cost comparison data available or human cost is non-positive."
    option_savings := []
    annual_projections := []
    chart_data_verified := false }

/-- A well-formed catalogued robot. -/
def rGood : RobotRecord :=
  { robot_name := some "R", purchase_price := some (JVal.num 100000),
    op_cost_per_min := some (JVal.num 1), end_effector_cost_percent := Option.none }

/-- The full payload produced for one task, one robot and zero options —
independent of the validated numeric values. -/
def pxEmptyOptions : FinalResults :=
  { process_tasks := [taskH], available_robots := [rGood],
    automation_options := [], cost_benefit_analysis := [],
    recommendation := recEarly, task_savings_analysis := [],
    annual_projections := [] }

lemma pfa_error_on_invalid (hc dy hw eg : JVal) (msg : String)
    (hval : validate_financial_inputs hc dy hw eg = Except.error msg) :
    ∀ (v : String) (tasksR : Option (List PTask)) (robots : List RobotRecord)
      (opts : List AutomationOption),
      perform_full_analysis v hc dy hw eg tasksR robots opts =
        Except.ok (AnalysisPayload.errorResult
          ("Invalid financial input provided: " ++ msg)) := by
  intro v tasksR robots opts
  unfold perform_full_analysis
  rw [hval]

lemma pfa_ok_empty_options (hc dy hw eg : JVal) (t h g o : ℚ) (v : String)
    (hval : validate_financial_inputs hc dy hw eg = Except.ok (t, h, g, o)) :
    perform_full_analysis v hc dy hw eg (some [taskH]) [rGood] [] =
      Except.ok (AnalysisPayload.results pxEmptyOptions) := by
  have hmap : build_robot_data_map [rGood] = Except.ok [("R", rGood)] := by
    simp [build_robot_data_map, rGood, pyGetKey, dictInsert,
      List.foldlM_cons, List.foldlM_nil, Bind.bind, Except.bind, pure, Except.pure]
  have hdrn := drn_early_return [] o [] [taskH] t h [rGood] (Or.inl rfl)
  unfold perform_full_analysis
  rw [hval]
  simp [hmap, hdrn, pxEmptyOptions, recEarly, Bind.bind, Except.bind, pure, Except.pure]

/-- C8 amended: the run is aborted with an `{"error": ...}` result *before
any collaborator output is consulted* exactly when one of the four numeric
inputs fails conversion or `human_cost_min ≤ 0` (first conjunct: on
validation failure the result is the error payload and is independent of
every collaborator output).  Non-positive `depreciation_years` or
`hours_per_week` do **not** abort the run: whenever validation passes — in
particular for `T ≤ 0` or `H ≤ 0` — the pipeline proceeds and, e.g. with one
task, one robot and no options, returns a full results payload (second
conjunct). -/
theorem C8_validation_gate (hc dy hw eg : JVal) :
    (∀ msg, validate_financial_inputs hc dy hw eg = Except.error msg →
      ∀ (v v' : String) (tasksR tasksR' : Option (List PTask))
        (robots robots' : List RobotRecord)
        (opts opts' : List AutomationOption),
        perform_full_analysis v hc dy hw eg tasksR robots opts =
          Except.ok (AnalysisPayload.errorResult
            ("Invalid financial input provided: " ++ msg)) ∧
        perform_full_analysis v hc dy hw eg tasksR robots opts =
          perform_full_analysis v' hc dy hw eg tasksR' robots' opts') ∧
    (∀ t h g o, validate_financial_inputs hc dy hw eg = Except.ok (t, h, g, o) →
      ∀ v : String,
        perform_full_analysis v hc dy hw eg (some [taskH]) [rGood] [] =
          Except.ok (AnalysisPayload.results pxEmptyOptions)) := by
  constructor
  · intro msg hval v v' tasksR tasksR' robots robots' opts opts'
    constructor
    · exact pfa_error_on_invalid hc dy hw eg msg hval v tasksR robots opts
    · rw [pfa_error_on_invalid hc dy hw eg msg hval v tasksR robots opts,
        pfa_error_on_invalid hc dy hw eg msg hval v' tasksR' robots' opts']
  · intro t h g o hval v
    exact pfa_ok_empty_options hc dy hw eg t h g o v hval

/-- C8 as stated is false: `depreciation_years = -1 ≤ 0` passes the
orchestrator's input validation (which only checks conversions and the human
cost) — the run is *not* aborted and produces a full, non-error result. -/
theorem C8_counterexample :
    ((-1 : ℚ) ≤ 0) ∧
    perform_full_analysis "gs://v" (JVal.num 1) (JVal.num (-1)) (JVal.num 40)
        (JVal.num 0) (some [taskH]) [rGood] [] =
      Except.ok (AnalysisPayload.results pxEmptyOptions) ∧
    (∀ msg, AnalysisPayload.results pxEmptyOptions ≠
      AnalysisPayload.errorResult msg) := by
  refine ⟨by norm_num, ?_, fun msg h => AnalysisPayload.noConfusion h⟩
  exact pfa_ok_empty_options (JVal.num 1) (JVal.num (-1)) (JVal.num 40) (JVal.num 0)
    (-1) 40 0 1 "gs://v"
    (by norm_num [validate_financial_inputs, floatEx, pyFloatOf,
      Bind.bind, Except.bind, pure, Except.pure])

/-- Witness for the amended C8: a non-positive human cost aborts with the
error payload, for arbitrary collaborator outputs. -/
theorem C8_validation_gate_witness :
    perform_full_analysis "gs://v" (JVal.num 0) (JVal.num 1) (JVal.num 1)
        (JVal.num 1) (some []) [] [] =
      Except.ok (AnalysisPayload.errorResult
        ("Invalid financial input provided: " ++
          "Human cost per minute must be positive.")) :=
  ((C8_validation_gate (JVal.num 0) (JVal.num 1) (JVal.num 1) (JVal.num 1)).1
    "Human cost per minute must be positive."
    (by norm_num [validate_financial_inputs, floatEx, pyFloatOf,
      Bind.bind, Except.bind, pure, Except.pure])
    "gs://v" "x" (some []) Option.none [] [] [] []).1

/-- Assignment dict missing the `robot_name` key. -/
def asgNoRobot : Assignment := { task_id := some 1, robot_name := Option.none }

/-- A syntactically parsed option whose single assignment lacks
`robot_name`. -/
def optBad : AutomationOption :=
  { option_id := some "O1", assignments := [asgNoRobot] }

/-- C9 fails on the code: with valid financial inputs, a non-empty task
list, a well-formed catalog, and an option set containing one assignment
without a `robot_name` key, `perform_full_analysis` raises an uncaught
`KeyError` at the step-3 comprehension
`set(assign['robot_name'] for assign in assignments)` (line 613) — the
caller receives neither a complete result object nor an `{"error": ...}`
object.  The spec's "never an unhandled fault" is the evident intent
(§7 treats generator output as untrusted), so this is a code bug. -/
theorem C9_unhandled_keyerror :
    perform_full_analysis "gs://v" (JVal.num 1) (JVal.num 1) (JVal.num 40)
        (JVal.num 0) (some [taskH]) [rGood] [optBad] =
      Except.error (PyExn.keyError "robot_name") := by
  have hmap : build_robot_data_map [rGood] = Except.ok [("R", rGood)] := by
    simp [build_robot_data_map, rGood, pyGetKey, dictInsert,
      List.foldlM_cons, List.foldlM_nil, Bind.bind, Except.bind, pure, Except.pure]
  have hval : validate_financial_inputs (JVal.num 1) (JVal.num 1) (JVal.num 40)
      (JVal.num 0) = Except.ok (1, 40, 0, 1) := by
    norm_num [validate_financial_inputs, floatEx, pyFloatOf,
      Bind.bind, Except.bind, pure, Except.pure]
  unfold perform_full_analysis
  rw [hval]
  simp [hmap, cost_comparison_for_option, optBad, asgNoRobot, pyGetKey,
    List.mapM, List.mapM.loop, Bind.bind, Except.bind, pure, Except.pure]
